import Mathlib

/-
Verification of the san-reactos simulation core against its specification.

The embedding translates the TypeScript source into Lean over exact rational
arithmetic (JavaScript numbers are modelled as the rationals; every constant in
the source is an exact decimal, so no rounding is lost on the paths studied
here).  Transcendental library calls (Math.sin, Math.cos, Math.exp, Math.atan2,
Math.PI) are modelled as oracle parameters, and square roots that the source
only compares against constants are translated to the equivalent squared
comparison; each such spot is marked with a comment.  Randomness (Math.random)
is modelled as an explicit stream of rationals.
-/

namespace SanReactos

/-- EntityType from src/types.ts. -/
inductive EntityType where
  | PLAYER
  | CIVILIAN
  | GANG_MEMBER
  | POLICE
  | VEHICLE
  | BUILDING
  | ITEM_WEAPON
  | PROJECTILE
  | PROP
deriving DecidableEq

/-- TileType from src/types.ts. -/
inductive TileType where
  | GRASS
  | ROAD
  | WATER
  | SIDEWALK
  | SAND
  | MOUNTAIN
  | FLOOR
deriving DecidableEq

/-- Entity state strings from src/types.ts (plus `punching`, which
GameScene.tsx assigns even though the declared union omits it). -/
inductive EState where
  | idle
  | walking
  | driving
  | dead
  | entering_vehicle
  | exiting_vehicle
  | punching
deriving DecidableEq

/-- WeaponType from src/types.ts. -/
inductive Weapon where
  | FIST
  | PISTOL
  | UZI
deriving DecidableEq

/-- Faction tags from src/types.ts. -/
inductive Faction where
  | civilian
  | groves
  | ballas
  | police
deriving DecidableEq

/-- propType tags from src/types.ts. -/
inductive PropKind where
  | tree
  | streetlight
  | hydrant
  | sign
deriving DecidableEq

/-- buildingType tags from src/types.ts. -/
inductive BuildingKind where
  | skyscraper
  | residential
  | commercial
  | industrial
deriving DecidableEq

/-- accessory tags from src/types.ts. -/
inductive Accessory where
  | none
  | hat
  | backpack
  | bandana
deriving DecidableEq

/-- Vector3 from src/types.ts. -/
structure Vec3 where
  x : ℚ
  y : ℚ
  z : ℚ
deriving DecidableEq

/-- Entity from src/types.ts.  Optional fields become Option values. -/
structure Entity where
  id : String
  type : EntityType
  pos : Vec3
  vel : Vec3
  rotation : Vec3
  health : ℚ
  maxHealth : ℚ
  color : String
  size : Vec3
  state : EState
  vehicleId : Option String := Option.none
  targetEntityId : Option String := Option.none
  inventory : List Weapon := []
  targetPos : Option Vec3 := Option.none
  faction : Option Faction := Option.none
  propType : Option PropKind := Option.none
  buildingType : Option BuildingKind := Option.none
  accessory : Option Accessory := Option.none
deriving DecidableEq

/-- Math.abs, written out so that it evaluates by unfolding. -/
def qabs (q : ℚ) : ℚ := if q < 0 then -q else q

theorem qabs_eq_abs (q : ℚ) : qabs q = |q| := by
  unfold qabs
  rcases lt_or_le q 0 with h | h
  · rw [if_pos h, abs_of_neg h]
  · rw [if_neg (not_lt.mpr h), abs_of_nonneg h]

/-- TILE_SIZE from the constants module. -/
def TILE_SIZE : ℚ := 10

/-- COLLISION_CHECK_RANGE from src/utils/physics.ts. -/
def COLLISION_CHECK_RANGE : ℚ := 15

/-- The precise horizontal AABB overlap test of checkCollision
(src/utils/physics.ts lines 21 to 26), as a predicate on the query box and a
candidate entity. -/
def aabbOverlap (pos size : Vec3) (e : Entity) : Bool :=
  decide (pos.x + size.x / 2 > e.pos.x - e.size.x / 2 ∧
          pos.x - size.x / 2 < e.pos.x + e.size.x / 2 ∧
          pos.z + size.z / 2 > e.pos.z - e.size.z / 2 ∧
          pos.z - size.z / 2 < e.pos.z + e.size.z / 2)

/-- The per-entity body of the checkCollision loop (src/utils/physics.ts):
skip self, projectiles, dead entities, and entities outside the broad-phase
range; otherwise run the precise AABB test. -/
def collidesWith (pos size : Vec3) (selfId : String) (e : Entity) : Bool :=
  decide (¬ e.id = selfId ∧ ¬ e.type = EntityType.PROJECTILE ∧ ¬ e.state = EState.dead ∧
          ¬ (qabs (e.pos.x - pos.x) > COLLISION_CHECK_RANGE ∨
             qabs (e.pos.z - pos.z) > COLLISION_CHECK_RANGE)) &&
  aabbOverlap pos size e

/-- checkCollision from src/utils/physics.ts.  The source returns true on the
first overlapping entity, which is List.any. -/
def checkCollision (pos size : Vec3) (entities : List Entity) (selfId : String) : Bool :=
  entities.any (collidesWith pos size selfId)

/-- A baseline entity record used to build concrete test inputs. -/
def baseEntity : Entity :=
  { id := "", type := EntityType.CIVILIAN,
    pos := ⟨0, 0, 0⟩, vel := ⟨0, 0, 0⟩, rotation := ⟨0, 0, 0⟩,
    health := 100, maxHealth := 100, color := "#fff",
    size := ⟨4/5, 9/5, 4/5⟩, state := EState.idle }

/-- C2 counterexample: a living, non-projectile entity whose AABB overlaps the
query box, yet checkCollision on the singleton list returns false, because the
broad-phase reject skips any entity whose centre is more than 15 units away on
an axis.  So adding an overlapping entity of arbitrary size at arbitrary
distance does not always flip the result to true. -/
theorem C2_far_overlap_missed :
    aabbOverlap ⟨0, 0, 0⟩ ⟨1, 1, 1⟩
      { baseEntity with id := "e1", pos := ⟨20, 0, 0⟩, size := ⟨100, 1, 100⟩ } = true ∧
    ({ baseEntity with id := "e1", pos := ⟨20, 0, 0⟩, size := ⟨100, 1, 100⟩ } : Entity).state ≠ EState.dead ∧
    ({ baseEntity with id := "e1", pos := ⟨20, 0, 0⟩, size := ⟨100, 1, 100⟩ } : Entity).type ≠ EntityType.PROJECTILE ∧
    "e1" ≠ "self" ∧
    checkCollision ⟨0, 0, 0⟩ ⟨1, 1, 1⟩
      [{ baseEntity with id := "e1", pos := ⟨20, 0, 0⟩, size := ⟨100, 1, 100⟩ }] "self" = false := by
  refine ⟨?_, by simp [baseEntity], by simp [baseEntity], by simp, ?_⟩
  · unfold aabbOverlap baseEntity
    norm_num
  · unfold checkCollision collidesWith aabbOverlap baseEntity qabs COLLISION_CHECK_RANGE
    norm_num

/-- C2 amended: membership sensitivity of checkCollision holds for entities
whose centre is within the broad-phase range (15) of the query position on both
axes.  Appending such a living, non-projectile, overlapping entity makes
checkCollision true, and marking it dead restores the value computed without
it (removing it restores the previous value trivially). -/
theorem C2_membership (pos size : Vec3) (es : List Entity) (selfId : String) (e : Entity)
    (hid : e.id ≠ selfId)
    (hty : e.type ≠ EntityType.PROJECTILE)
    (hst : e.state ≠ EState.dead)
    (hx : qabs (e.pos.x - pos.x) ≤ COLLISION_CHECK_RANGE)
    (hz : qabs (e.pos.z - pos.z) ≤ COLLISION_CHECK_RANGE)
    (hov : aabbOverlap pos size e = true) :
    checkCollision pos size (es ++ [e]) selfId = true ∧
    checkCollision pos size (es ++ [{ e with state := EState.dead }]) selfId =
      checkCollision pos size es selfId := by
  constructor
  · have he : collidesWith pos size selfId e = true := by
      unfold collidesWith
      rw [hov, Bool.and_true, decide_eq_true_eq]
      refine ⟨hid, hty, hst, ?_⟩
      push_neg
      exact ⟨hx, hz⟩
    unfold checkCollision
    rw [List.any_append]
    simp [he]
  · have hd : collidesWith pos size selfId { e with state := EState.dead } = false := by
      unfold collidesWith
      simp
    unfold checkCollision
    rw [List.any_append]
    simp [hd]

/-- C2 witness: the amended membership property evaluated at a concrete
in-range overlapping entity. -/
theorem C2_membership_witness :
    (("w1" : String) ≠ "self" ∧
     ({ baseEntity with id := "w1" } : Entity).type ≠ EntityType.PROJECTILE ∧
     ({ baseEntity with id := "w1" } : Entity).state ≠ EState.dead ∧
     qabs (({ baseEntity with id := "w1" } : Entity).pos.x - (Vec3.mk 0 0 0).x) ≤ COLLISION_CHECK_RANGE ∧
     qabs (({ baseEntity with id := "w1" } : Entity).pos.z - (Vec3.mk 0 0 0).z) ≤ COLLISION_CHECK_RANGE ∧
     aabbOverlap ⟨0, 0, 0⟩ ⟨1, 1, 1⟩ { baseEntity with id := "w1" } = true) ∧
    (checkCollision ⟨0, 0, 0⟩ ⟨1, 1, 1⟩ ([] ++ [{ baseEntity with id := "w1" }]) "self" = true ∧
     checkCollision ⟨0, 0, 0⟩ ⟨1, 1, 1⟩
       ([] ++ [{ ({ baseEntity with id := "w1" } : Entity) with state := EState.dead }]) "self" =
       checkCollision ⟨0, 0, 0⟩ ⟨1, 1, 1⟩ [] "self") :=
  ⟨⟨by simp, by simp [baseEntity], by simp [baseEntity],
    by unfold baseEntity qabs COLLISION_CHECK_RANGE; norm_num,
    by unfold baseEntity qabs COLLISION_CHECK_RANGE; norm_num,
    by unfold aabbOverlap baseEntity; norm_num⟩,
   C2_membership ⟨0, 0, 0⟩ ⟨1, 1, 1⟩ [] "self" { baseEntity with id := "w1" }
     (by simp) (by simp [baseEntity]) (by simp [baseEntity])
     (by unfold baseEntity qabs COLLISION_CHECK_RANGE; norm_num)
     (by unfold baseEntity qabs COLLISION_CHECK_RANGE; norm_num)
     (by unfold aabbOverlap baseEntity; norm_num)⟩

/-- Replace the first list element satisfying p by its image under f.  This
models the in-place mutation of the single entity located by a first-match
scan in the source (the loops break after the first hit). -/
def setFirstWhere {α : Type} (p : α → Bool) (f : α → α) : List α → List α
  | [] => []
  | a :: l => if p a then f a :: l else a :: setFirstWhere p f l

theorem find_of_split {α : Type} (p : α → Bool) (t : α) :
    ∀ l1 : List α, (∀ u ∈ l1, p u = false) → p t = true →
      ∀ l2 : List α, (l1 ++ t :: l2).find? p = some t := by
  intro l1
  induction l1 with
  | nil =>
    intro _ ht l2
    simp [List.find?, ht]
  | cons a l ih =>
    intro h1 ht l2
    have ha : p a = false := h1 a (by simp)
    simp only [List.cons_append, List.find?, ha]
    exact ih (fun u hu => h1 u (by simp [hu])) ht l2

theorem setFirstWhere_of_split {α : Type} (p : α → Bool) (f : α → α) (t : α) :
    ∀ l1 : List α, (∀ u ∈ l1, p u = false) → p t = true →
      ∀ l2 : List α, setFirstWhere p f (l1 ++ t :: l2) = l1 ++ f t :: l2 := by
  intro l1
  induction l1 with
  | nil =>
    intro _ ht l2
    simp [setFirstWhere, ht]
  | cons a l ih =>
    intro h1 ht l2
    have ha : p a = false := h1 a (by simp)
    simp only [List.cons_append, setFirstWhere, ha, if_false, Bool.false_eq_true]
    exact congrArg (fun r => a :: r) (ih (fun u hu => h1 u (by simp [hu])) ht l2)

theorem find_of_none {α : Type} (p : α → Bool) :
    ∀ l : List α, (∀ u ∈ l, p u = false) → l.find? p = Option.none := by
  intro l
  induction l with
  | nil => intro _; rfl
  | cons a l ih =>
    intro h
    have ha : p a = false := h a (by simp)
    simp only [List.find?, ha]
    exact ih (fun u hu => h u (by simp [hu]))

theorem setFirstWhere_of_none {α : Type} (p : α → Bool) (f : α → α) :
    ∀ l : List α, (∀ u ∈ l, p u = false) → setFirstWhere p f l = l := by
  intro l
  induction l with
  | nil => intro _; rfl
  | cons a l ih =>
    intro h
    have ha : p a = false := h a (by simp)
    simp only [setFirstWhere, ha, if_false, Bool.false_eq_true]
    rw [ih (fun u hu => h u (by simp [hu]))]

/-
Attack handling, from handleAttack in src/components/GameScene.tsx
(lines 100 to 239).  The handler reads and mutates the game state plus the
refs lastShootTime, lastMeleeTime and meleeComboCount; those appear here as
fields of AttackState.  Math.sin and Math.cos are passed as the oracle
parameters sinQ and cosQ, the Math.random value used for the money drop is the
parameter rand, and the Math.random-derived bullet id is the parameter newId.
-/

/-- The mutable state read and written by handleAttack. -/
structure AttackState where
  player : Entity
  entities : List Entity
  wantedLevel : ℤ
  money : ℚ
  lastShootTime : ℚ
  lastMeleeTime : ℚ
  meleeComboCount : ℕ
deriving DecidableEq

/-- meleeComboResetTime from GameScene.tsx line 98 (milliseconds). -/
def meleeComboResetTime : ℚ := 1000

/-- The combo counter update of GameScene.tsx lines 146 to 153: reset to 0
after an idle gap longer than the reset window, then increment modulo 4. -/
def meleeComboAfter (s : AttackState) (now : ℚ) : ℕ :=
  ((if now - s.lastMeleeTime > meleeComboResetTime then 0 else s.meleeComboCount) + 1) % 4

/-- comboMultiplier from GameScene.tsx line 161: 1 + combo * 0.25. -/
def comboMultiplier (combo : ℕ) : ℚ := 1 + (combo : ℚ) * (1/4)

/-- damage from GameScene.tsx line 162: Math.floor(baseDamage * comboMultiplier)
with baseDamage = 8. -/
def meleeDamage (s : AttackState) (now : ℚ) : ℤ :=
  ⌊(8 : ℚ) * comboMultiplier (meleeComboAfter s now)⌋

/-- The target filter of the melee scan (GameScene.tsx lines 171 to 173):
skip self, the dead, projectiles, weapon pickups, buildings and props. -/
def meleeTargetable (playerId : String) (t : Entity) : Bool :=
  decide (¬ t.id = playerId ∧ ¬ t.state = EState.dead ∧
          ¬ t.type = EntityType.PROJECTILE ∧ ¬ t.type = EntityType.ITEM_WEAPON ∧
          ¬ t.type = EntityType.BUILDING ∧ ¬ t.type = EntityType.PROP)

/-- The melee cone test of GameScene.tsx lines 175 to 183, with
(dx, dz) the horizontal offset from the attack position to the target and
(aX, aZ) the attack direction.  The source tests
`dist < attackRange && dot > 0.5` where `dist = sqrt(dx^2 + dz^2)` and
`dot` is the dot product of the attack direction with the normalised offset
(for a zero offset the normalised vector is zero, so the dot test fails).
This is the equivalent square-root-free form: dist < 2.5 becomes
dx^2 + dz^2 < 6.25, and dot > 0.5 becomes s > 0 together with
dx^2 + dz^2 < 4 * s^2 for s the unnormalised dot product. -/
def meleeInCone (aX aZ dx dz : ℚ) : Bool :=
  decide (dx^2 + dz^2 < 25/4 ∧ 0 < aX * dx + aZ * dz ∧
          dx^2 + dz^2 < 4 * (aX * dx + aZ * dz)^2)

/-- The full per-target hit predicate of the melee scan; (px, pz) is the
player position (attackPos shares its x and z with player.pos). -/
def meleeHitPred (playerId : String) (aX aZ px pz : ℚ) (t : Entity) : Bool :=
  meleeTargetable playerId t && meleeInCone aX aZ (t.pos.x - px) (t.pos.z - pz)

/-- The mutation applied to the single entity hit by a punch (GameScene.tsx
lines 186 to 200): subtract damage, on a kill set health to exactly 0 and the
state to dead, then add the knockback impulse 8 * comboMultiplier along the
attack direction. -/
def meleeDamagedTarget (aX aZ mult : ℚ) (damage : ℤ) (t : Entity) : Entity :=
  let h := t.health - (damage : ℚ)
  let t1 := if h ≤ 0 then { t with health := 0, state := EState.dead }
            else { t with health := h }
  { t1 with vel := ⟨t1.vel.x + aX * (8 * mult), t1.vel.y, t1.vel.z + aZ * (8 * mult)⟩ }

/-- The melee branch of handleAttack (GameScene.tsx lines 140 to 238).
The 400 ms cooldown is checked against the shared lastShootTime.  The scan
applies damage, money drop and wanted escalation to the first qualifying
target in entity order.  The punching timeout reversion is a deferred
callback outside this step. -/
def meleeAttack (sinQ cosQ : ℚ → ℚ) (rand now : ℚ) (s : AttackState) : AttackState :=
  if now - s.lastShootTime < 400 then s else
  let combo := meleeComboAfter s now
  let mult := comboMultiplier combo
  let damage := meleeDamage s now
  let aX := sinQ s.player.rotation.y
  let aZ := cosQ s.player.rotation.y
  let pred := meleeHitPred s.player.id aX aZ s.player.pos.x s.player.pos.z
  let hitT := s.entities.find? pred
  { s with
    player := { s.player with state := EState.punching },
    entities := setFirstWhere pred (meleeDamagedTarget aX aZ mult damage) s.entities,
    money := s.money +
      (match hitT with
       | Option.some t =>
         if t.health - (damage : ℚ) ≤ 0 ∧
            (t.type = EntityType.CIVILIAN ∨ t.type = EntityType.GANG_MEMBER)
         then ((⌊rand * 50⌋ + 20 : ℤ) : ℚ) else 0
       | Option.none => 0),
    wantedLevel :=
      (match hitT with
       | Option.some t =>
         if (t.type = EntityType.CIVILIAN ∨ t.type = EntityType.POLICE) ∧ s.wantedLevel < 2
         then 2 else s.wantedLevel
       | Option.none => s.wantedLevel),
    lastShootTime := now,
    lastMeleeTime := now,
    meleeComboCount := combo }

/-- The bullet entity spawned by the ranged branch (GameScene.tsx lines 121
to 136), with dirX and dirZ the components of the already-halved direction. -/
def rangedBullet (newId : String) (dirX dirZ : ℚ) (s : AttackState) : Entity :=
  { id := newId, type := EntityType.PROJECTILE,
    pos := ⟨s.player.pos.x + dirX, 3/2, s.player.pos.z + dirZ⟩,
    vel := ⟨dirX * 40, 0, dirZ * 40⟩,
    rotation := ⟨0, 0, 0⟩,
    health := 1, maxHealth := 1, color := "yellow",
    size := ⟨1/10, 1/10, 1/10⟩, state := EState.idle }

/-- The ranged branch of handleAttack (GameScene.tsx lines 108 to 139).
The direction is (sin yaw, 0, cos yaw).normalize(), and normalize is the
identity there by the Pythagorean identity.  Note that the source calls
dir.multiplyScalar(0.5) to build the spawn offset, which mutates dir in
place, so the bullet velocity read afterwards is 40 times the halved
direction (a speed of 20 units per second along the heading). -/
def rangedAttack (sinQ cosQ : ℚ → ℚ) (newId : String) (now : ℚ) (s : AttackState) : AttackState :=
  if now - s.lastShootTime < 200 then s else
  let yaw := s.player.rotation.y
  let dirX := sinQ yaw * (1/2)
  let dirZ := cosQ yaw * (1/2)
  { s with
    lastShootTime := now,
    wantedLevel := if s.wantedLevel = 0 then 1 else s.wantedLevel,
    entities := s.entities ++ [rangedBullet newId dirX dirZ s] }

/-- handleAttack from GameScene.tsx lines 100 to 239: no attacks while
driving or dead; the equipped weapon (inventory head, fist when absent)
selects the ranged or the melee branch. -/
def handleAttack (sinQ cosQ : ℚ → ℚ) (newId : String) (rand now : ℚ) (s : AttackState) : AttackState :=
  if s.player.state = EState.driving ∨ s.player.state = EState.dead then s
  else if s.player.inventory.headD Weapon.FIST ≠ Weapon.FIST then
    rangedAttack sinQ cosQ newId now s
  else
    meleeAttack sinQ cosQ rand now s

theorem handleAttack_melee_eq (sinQ cosQ : ℚ → ℚ) (newId : String) (rand now : ℚ)
    (s : AttackState)
    (hstate : ¬ (s.player.state = EState.driving ∨ s.player.state = EState.dead))
    (hw : s.player.inventory.headD Weapon.FIST = Weapon.FIST) :
    handleAttack sinQ cosQ newId rand now s = meleeAttack sinQ cosQ rand now s := by
  unfold handleAttack
  rw [if_neg hstate, if_neg (fun h => h hw)]

theorem handleAttack_ranged_eq (sinQ cosQ : ℚ → ℚ) (newId : String) (rand now : ℚ)
    (s : AttackState)
    (hstate : ¬ (s.player.state = EState.driving ∨ s.player.state = EState.dead))
    (hw : s.player.inventory.headD Weapon.FIST ≠ Weapon.FIST) :
    handleAttack sinQ cosQ newId rand now s = rangedAttack sinQ cosQ newId now s := by
  unfold handleAttack
  rw [if_neg hstate, if_pos hw]

theorem meleeAttack_fields (sinQ cosQ : ℚ → ℚ) (rand now : ℚ) (s : AttackState)
    (hcool : ¬ now - s.lastShootTime < 400) :
    (meleeAttack sinQ cosQ rand now s).lastShootTime = now ∧
    (meleeAttack sinQ cosQ rand now s).lastMeleeTime = now ∧
    (meleeAttack sinQ cosQ rand now s).meleeComboCount = meleeComboAfter s now ∧
    (meleeAttack sinQ cosQ rand now s).player.state = EState.punching ∧
    (meleeAttack sinQ cosQ rand now s).player.id = s.player.id ∧
    (meleeAttack sinQ cosQ rand now s).player.inventory = s.player.inventory := by
  unfold meleeAttack
  rw [if_neg hcool]
  exact ⟨rfl, rfl, rfl, rfl, rfl, rfl⟩

theorem meleeAttack_hit_eval (sinQ cosQ : ℚ → ℚ) (rand now : ℚ) (s : AttackState) (t : Entity)
    (hcool : ¬ now - s.lastShootTime < 400)
    (hfind : s.entities.find?
        (meleeHitPred s.player.id (sinQ s.player.rotation.y) (cosQ s.player.rotation.y)
          s.player.pos.x s.player.pos.z) = Option.some t) :
    meleeAttack sinQ cosQ rand now s =
    { player := { s.player with state := EState.punching },
      entities := setFirstWhere
        (meleeHitPred s.player.id (sinQ s.player.rotation.y) (cosQ s.player.rotation.y)
          s.player.pos.x s.player.pos.z)
        (meleeDamagedTarget (sinQ s.player.rotation.y) (cosQ s.player.rotation.y)
          (comboMultiplier (meleeComboAfter s now)) (meleeDamage s now)) s.entities,
      money := s.money +
        (if t.health - ((meleeDamage s now : ℤ) : ℚ) ≤ 0 ∧
            (t.type = EntityType.CIVILIAN ∨ t.type = EntityType.GANG_MEMBER)
         then ((⌊rand * 50⌋ + 20 : ℤ) : ℚ) else 0),
      wantedLevel :=
        if (t.type = EntityType.CIVILIAN ∨ t.type = EntityType.POLICE) ∧ s.wantedLevel < 2
        then 2 else s.wantedLevel,
      lastShootTime := now,
      lastMeleeTime := now,
      meleeComboCount := meleeComboAfter s now } := by
  unfold meleeAttack
  rw [if_neg hcool]
  simp only [hfind]

/-- A concrete unarmed player entity at the origin facing +z. -/
def meleePlayer : Entity :=
  { baseEntity with id := "player", type := EntityType.PLAYER, inventory := [Weapon.FIST] }

/-- A concrete living civilian one unit ahead of the origin. -/
def npc1 : Entity := { baseEntity with id := "npc1", pos := ⟨0, 0, 1⟩ }

/-- A concrete pre-attack state: unarmed player at the origin facing +z, one
living civilian one unit ahead, fresh combo. -/
def meleeS0 : AttackState :=
  { player := meleePlayer, entities := [npc1],
    wantedLevel := 0, money := 0,
    lastShootTime := 0, lastMeleeTime := 0, meleeComboCount := 0 }

/-- C5 counterexample: starting from a fresh combo, the source increments the
combo counter before computing the multiplier, so the first attack already
uses multiplier 1.25 (damage floor(8 * 1.25) = 10), not 1.0 (damage 8).  The
civilian one unit ahead loses 10 health, and the combo counter after the
first attack is 1. -/
theorem C5_first_attack_not_unit_multiplier :
    ((handleAttack (fun _ => 0) (fun _ => 1) "b" 0 2000 meleeS0).entities.head?.map
        (fun e => e.health)) = Option.some 90 ∧
    (handleAttack (fun _ => 0) (fun _ => 1) "b" 0 2000 meleeS0).meleeComboCount = 1 ∧
    comboMultiplier 1 = 5/4 ∧
    (90 : ℚ) ≠ 100 - 8 * 1 := by
  have hstate : ¬ (meleeS0.player.state = EState.driving ∨ meleeS0.player.state = EState.dead) := by
    simp [meleeS0, meleePlayer, baseEntity]
  have hw : meleeS0.player.inventory.headD Weapon.FIST = Weapon.FIST := by rfl
  have hcool : ¬ (2000 : ℚ) - meleeS0.lastShootTime < 400 := by
    show ¬ (2000 : ℚ) - 0 < 400
    norm_num
  have hpred : meleeHitPred meleeS0.player.id ((fun (_ : ℚ) => (0:ℚ)) meleeS0.player.rotation.y)
      ((fun (_ : ℚ) => (1:ℚ)) meleeS0.player.rotation.y)
      meleeS0.player.pos.x meleeS0.player.pos.z npc1 = true := by
    simp only [meleeHitPred, meleeTargetable, meleeInCone, Bool.and_eq_true, decide_eq_true_eq,
      meleeS0, meleePlayer, npc1, baseEntity]
    refine ⟨⟨by simp, by simp, by simp, by simp, by simp, by simp⟩, by norm_num⟩
  have hfind : meleeS0.entities.find?
      (meleeHitPred meleeS0.player.id ((fun (_ : ℚ) => (0:ℚ)) meleeS0.player.rotation.y)
        ((fun (_ : ℚ) => (1:ℚ)) meleeS0.player.rotation.y)
        meleeS0.player.pos.x meleeS0.player.pos.z) = Option.some npc1 := by
    show List.find? _ [npc1] = _
    rw [List.find?, hpred]
  have hcombo : meleeComboAfter meleeS0 2000 = 1 := by
    unfold meleeComboAfter
    rw [if_pos (by show (2000:ℚ) - 0 > meleeComboResetTime; unfold meleeComboResetTime; norm_num)]
  have hdmg : meleeDamage meleeS0 2000 = 10 := by
    unfold meleeDamage comboMultiplier
    rw [hcombo]
    norm_num
  have heq := handleAttack_melee_eq (fun _ => 0) (fun _ => 1) "b" 0 2000 meleeS0 hstate hw
  have heval := meleeAttack_hit_eval (fun _ => 0) (fun _ => 1) 0 2000 meleeS0 npc1 hcool hfind
  refine ⟨?_, ?_, by unfold comboMultiplier; norm_num, by norm_num⟩
  · rw [heq, heval]
    show (setFirstWhere _ _ meleeS0.entities).head?.map (fun e => e.health) = _
    have hents : meleeS0.entities = [npc1] := rfl
    rw [hents, setFirstWhere, if_pos hpred]
    simp only [List.head?, Option.map]
    rw [hcombo, hdmg]
    show Option.some (meleeDamagedTarget _ _ _ 10 npc1).health = _
    unfold meleeDamagedTarget npc1 baseEntity
    norm_num
  · rw [heq, heval]
    exact hcombo

/-- C5 amended: four consecutive melee attacks starting from a fresh combo, at
gaps that respect the 400 ms cooldown and stay within the 1000 ms combo
window, produce combo counters 1, 2, 3, 0 and hence damage multipliers
1.25, 1.5, 1.75, 1.0; the fifth attack cycles back to counter 1 and
multiplier 1.25.  The combo sequence is shifted one place from the claimed
1.0, 1.25, 1.5, 1.75 because the counter is incremented before the
multiplier is read. -/
theorem C5_combo_cycle (sinQ cosQ : ℚ → ℚ) (i1 i2 i3 i4 i5 : String)
    (r1 r2 r3 r4 r5 t1 t2 t3 t4 t5 : ℚ) (s0 : AttackState)
    (hstate : ¬ (s0.player.state = EState.driving ∨ s0.player.state = EState.dead))
    (hw : s0.player.inventory.headD Weapon.FIST = Weapon.FIST)
    (hfresh : t1 - s0.lastMeleeTime > meleeComboResetTime)
    (hc1 : ¬ t1 - s0.lastShootTime < 400)
    (h12 : ¬ t2 - t1 < 400) (h12w : ¬ t2 - t1 > meleeComboResetTime)
    (h23 : ¬ t3 - t2 < 400) (h23w : ¬ t3 - t2 > meleeComboResetTime)
    (h34 : ¬ t4 - t3 < 400) (h34w : ¬ t4 - t3 > meleeComboResetTime)
    (h45 : ¬ t5 - t4 < 400) (h45w : ¬ t5 - t4 > meleeComboResetTime) :
    (handleAttack sinQ cosQ i1 r1 t1 s0).meleeComboCount = 1 ∧
    (handleAttack sinQ cosQ i2 r2 t2
      (handleAttack sinQ cosQ i1 r1 t1 s0)).meleeComboCount = 2 ∧
    (handleAttack sinQ cosQ i3 r3 t3 (handleAttack sinQ cosQ i2 r2 t2
      (handleAttack sinQ cosQ i1 r1 t1 s0))).meleeComboCount = 3 ∧
    (handleAttack sinQ cosQ i4 r4 t4 (handleAttack sinQ cosQ i3 r3 t3
      (handleAttack sinQ cosQ i2 r2 t2
        (handleAttack sinQ cosQ i1 r1 t1 s0)))).meleeComboCount = 0 ∧
    (handleAttack sinQ cosQ i5 r5 t5 (handleAttack sinQ cosQ i4 r4 t4
      (handleAttack sinQ cosQ i3 r3 t3 (handleAttack sinQ cosQ i2 r2 t2
        (handleAttack sinQ cosQ i1 r1 t1 s0))))).meleeComboCount = 1 ∧
    comboMultiplier 1 = 5/4 ∧ comboMultiplier 2 = 3/2 ∧
    comboMultiplier 3 = 7/4 ∧ comboMultiplier 0 = 1 := by
  have step : ∀ (i : String) (r tPrev tNow : ℚ) (s : AttackState) (c : ℕ),
      ¬ (s.player.state = EState.driving ∨ s.player.state = EState.dead) →
      s.player.inventory.headD Weapon.FIST = Weapon.FIST →
      s.lastShootTime = tPrev → s.lastMeleeTime = tPrev → s.meleeComboCount = c →
      ¬ tNow - tPrev < 400 → ¬ tNow - tPrev > meleeComboResetTime →
      (handleAttack sinQ cosQ i r tNow s).meleeComboCount = (c + 1) % 4 ∧
      (handleAttack sinQ cosQ i r tNow s).lastShootTime = tNow ∧
      (handleAttack sinQ cosQ i r tNow s).lastMeleeTime = tNow ∧
      ¬ ((handleAttack sinQ cosQ i r tNow s).player.state = EState.driving ∨
         (handleAttack sinQ cosQ i r tNow s).player.state = EState.dead) ∧
      (handleAttack sinQ cosQ i r tNow s).player.inventory.headD Weapon.FIST = Weapon.FIST := by
    intro i r tPrev tNow s c hs hwv hshoot hmelee hcnt hcool hwin
    have heq := handleAttack_melee_eq sinQ cosQ i r tNow s hs hwv
    have hf := meleeAttack_fields sinQ cosQ r tNow s (by rw [hshoot]; exact hcool)
    have hafter : meleeComboAfter s tNow = (c + 1) % 4 := by
      unfold meleeComboAfter
      rw [hmelee, if_neg hwin, hcnt]
    refine ⟨?_, ?_, ?_, ?_, ?_⟩
    · rw [heq, hf.2.2.1, hafter]
    · rw [heq]; exact hf.1
    · rw [heq]; exact hf.2.1
    · rw [heq, hf.2.2.2.1]; simp
    · rw [heq, hf.2.2.2.2.2]
      exact hwv
  -- attack 1: fresh combo
  have heq1 := handleAttack_melee_eq sinQ cosQ i1 r1 t1 s0 hstate hw
  have hf1 := meleeAttack_fields sinQ cosQ r1 t1 s0 hc1
  have hafter1 : meleeComboAfter s0 t1 = 1 := by
    unfold meleeComboAfter
    rw [if_pos hfresh]
  have s1combo : (handleAttack sinQ cosQ i1 r1 t1 s0).meleeComboCount = 1 := by
    rw [heq1, hf1.2.2.1, hafter1]
  have s1shoot : (handleAttack sinQ cosQ i1 r1 t1 s0).lastShootTime = t1 := by
    rw [heq1]; exact hf1.1
  have s1melee : (handleAttack sinQ cosQ i1 r1 t1 s0).lastMeleeTime = t1 := by
    rw [heq1]; exact hf1.2.1
  have s1state : ¬ ((handleAttack sinQ cosQ i1 r1 t1 s0).player.state = EState.driving ∨
      (handleAttack sinQ cosQ i1 r1 t1 s0).player.state = EState.dead) := by
    rw [heq1, hf1.2.2.2.1]; simp
  have s1w : (handleAttack sinQ cosQ i1 r1 t1 s0).player.inventory.headD Weapon.FIST
      = Weapon.FIST := by
    rw [heq1, hf1.2.2.2.2.2]
    exact hw
  have st2 := step i2 r2 t1 t2 _ 1 s1state s1w s1shoot s1melee s1combo h12 h12w
  have st3 := step i3 r3 t2 t3 _ 2 st2.2.2.2.1 st2.2.2.2.2 st2.2.1 st2.2.2.1 st2.1 h23 h23w
  have st4 := step i4 r4 t3 t4 _ 3 st3.2.2.2.1 st3.2.2.2.2 st3.2.1 st3.2.2.1 st3.1 h34 h34w
  have st5 := step i5 r5 t4 t5 _ 0 st4.2.2.2.1 st4.2.2.2.2 st4.2.1 st4.2.2.1 st4.1 h45 h45w
  exact ⟨s1combo, st2.1, st3.1, st4.1, st5.1,
    by unfold comboMultiplier; norm_num, by unfold comboMultiplier; norm_num,
    by unfold comboMultiplier; norm_num, by unfold comboMultiplier; norm_num⟩

/-- Shorthand for handleAttack with the heading oracles frozen at yaw 0
(sin = 0, cos = 1) and the money random frozen at 0; used by concrete
instantiations. -/
def atk (i : String) (t : ℚ) (s : AttackState) : AttackState :=
  handleAttack (fun _ => 0) (fun _ => 1) i 0 t s

/-- C5 witness: the amended combo cycle evaluated on a concrete fresh state
with attacks at times 2000, 2400, 2800, 3200, 3600. -/
theorem C5_combo_cycle_witness :
    (¬ (meleeS0.player.state = EState.driving ∨ meleeS0.player.state = EState.dead) ∧
     meleeS0.player.inventory.headD Weapon.FIST = Weapon.FIST ∧
     (2000:ℚ) - meleeS0.lastMeleeTime > meleeComboResetTime ∧
     ¬ (2000:ℚ) - meleeS0.lastShootTime < 400 ∧
     (¬ (2400:ℚ) - 2000 < 400) ∧ (¬ (2400:ℚ) - 2000 > meleeComboResetTime) ∧
     (¬ (2800:ℚ) - 2400 < 400) ∧ (¬ (2800:ℚ) - 2400 > meleeComboResetTime) ∧
     (¬ (3200:ℚ) - 2800 < 400) ∧ (¬ (3200:ℚ) - 2800 > meleeComboResetTime) ∧
     (¬ (3600:ℚ) - 3200 < 400) ∧ (¬ (3600:ℚ) - 3200 > meleeComboResetTime)) ∧
    ((atk "a" 2000 meleeS0).meleeComboCount = 1 ∧
     (atk "b" 2400 (atk "a" 2000 meleeS0)).meleeComboCount = 2 ∧
     (atk "c" 2800 (atk "b" 2400 (atk "a" 2000 meleeS0))).meleeComboCount = 3 ∧
     (atk "d" 3200 (atk "c" 2800 (atk "b" 2400 (atk "a" 2000 meleeS0)))).meleeComboCount = 0 ∧
     (atk "e" 3600 (atk "d" 3200 (atk "c" 2800 (atk "b" 2400
       (atk "a" 2000 meleeS0))))).meleeComboCount = 1 ∧
     comboMultiplier 1 = 5/4 ∧ comboMultiplier 2 = 3/2 ∧
     comboMultiplier 3 = 7/4 ∧ comboMultiplier 0 = 1) :=
  ⟨⟨by simp [meleeS0, meleePlayer, baseEntity], rfl,
    by show (2000:ℚ) - 0 > meleeComboResetTime; unfold meleeComboResetTime; norm_num,
    by show ¬ (2000:ℚ) - 0 < 400; norm_num,
    by norm_num, by unfold meleeComboResetTime; norm_num,
    by norm_num, by unfold meleeComboResetTime; norm_num,
    by norm_num, by unfold meleeComboResetTime; norm_num,
    by norm_num, by unfold meleeComboResetTime; norm_num⟩,
   C5_combo_cycle (fun _ => 0) (fun _ => 1) "a" "b" "c" "d" "e"
     0 0 0 0 0 2000 2400 2800 3200 3600 meleeS0
     (by simp [meleeS0, meleePlayer, baseEntity]) rfl
     (by show (2000:ℚ) - 0 > meleeComboResetTime; unfold meleeComboResetTime; norm_num)
     (by show ¬ (2000:ℚ) - 0 < 400; norm_num)
     (by norm_num) (by unfold meleeComboResetTime; norm_num)
     (by norm_num) (by unfold meleeComboResetTime; norm_num)
     (by norm_num) (by unfold meleeComboResetTime; norm_num)
     (by norm_num) (by unfold meleeComboResetTime; norm_num)⟩

theorem rangedAttack_fires (sinQ cosQ : ℚ → ℚ) (newId : String) (now : ℚ) (s : AttackState)
    (hcool : ¬ now - s.lastShootTime < 200) :
    rangedAttack sinQ cosQ newId now s =
    { s with
      lastShootTime := now,
      wantedLevel := if s.wantedLevel = 0 then 1 else s.wantedLevel,
      entities := s.entities ++
        [rangedBullet newId (sinQ s.player.rotation.y * (1/2))
          (cosQ s.player.rotation.y * (1/2)) s] } := by
  unfold rangedAttack
  rw [if_neg hcool]

theorem rangedAttack_blocked (sinQ cosQ : ℚ → ℚ) (newId : String) (now : ℚ) (s : AttackState)
    (hcool : now - s.lastShootTime < 200) :
    rangedAttack sinQ cosQ newId now s = s := by
  unfold rangedAttack
  rw [if_pos hcool]

theorem setFirstWhere_length {α : Type} (p : α → Bool) (f : α → α) :
    ∀ l : List α, (setFirstWhere p f l).length = l.length := by
  intro l
  induction l with
  | nil => rfl
  | cons a l ih =>
    unfold setFirstWhere
    by_cases h : p a = true
    · rw [if_pos h]
      rfl
    · rw [if_neg h]
      simp only [List.length_cons, ih]

/-- A concrete armed player entity at the origin facing +z. -/
def pistolPlayer : Entity :=
  { baseEntity with id := "player", type := EntityType.PLAYER, inventory := [Weapon.PISTOL] }

/-- A concrete pre-attack state for the ranged scenarios: armed player, no
other entities, no wanted level, all timers at zero. -/
def rangedS0 : AttackState :=
  { player := pistolPlayer, entities := [],
    wantedLevel := 0, money := 0,
    lastShootTime := 0, lastMeleeTime := 0, meleeComboCount := 0 }

/-- The effect of the weapon pickup on the equipped weapon (GameScene.tsx
line 342: the inventory becomes the one-element list of the new weapon);
used to build attack-call sequences that change weapon between calls. -/
def swapWeapon (w : Weapon) (s : AttackState) : AttackState :=
  { s with player := { s.player with inventory := [w] } }

/-- C6 counterexample: the ranged fire-rate limit is not independent of
melee.  A ranged shot fires at time 1000; a melee attack fires at time 1500
(spawning no projectile); the ranged attempt at time 1650 is then blocked
even though the previous ranged shot is 650 ms old, more than the 200 ms
ranged cooldown, because melee refreshed the shared lastShootTime. -/
theorem C6_melee_blocks_ranged :
    (atk "x1" 1000 rangedS0).entities.length = 1 ∧
    (atk "x2" 1500 (swapWeapon Weapon.FIST (atk "x1" 1000 rangedS0))).player.state
      = EState.punching ∧
    (atk "x2" 1500 (swapWeapon Weapon.FIST (atk "x1" 1000 rangedS0))).entities.length = 1 ∧
    (1650:ℚ) - 1000 ≥ 200 ∧
    atk "x3" 1650 (swapWeapon Weapon.PISTOL (atk "x2" 1500
        (swapWeapon Weapon.FIST (atk "x1" 1000 rangedS0))))
      = swapWeapon Weapon.PISTOL (atk "x2" 1500
        (swapWeapon Weapon.FIST (atk "x1" 1000 rangedS0))) := by
  have hstate0 : ¬ (rangedS0.player.state = EState.driving ∨
      rangedS0.player.state = EState.dead) := by decide
  have hw0 : rangedS0.player.inventory.headD Weapon.FIST ≠ Weapon.FIST := by decide
  have hA : atk "x1" 1000 rangedS0 =
      { rangedS0 with
        lastShootTime := 1000,
        wantedLevel := 1,
        entities := [rangedBullet "x1" (0 * (1/2)) (1 * (1/2)) rangedS0] } := by
    unfold atk
    rw [handleAttack_ranged_eq _ _ _ _ _ _ hstate0 hw0,
        rangedAttack_fires _ _ _ _ _ (by show ¬ (1000:ℚ) - 0 < 200; norm_num)]
    rfl
  have hswA : swapWeapon Weapon.FIST (atk "x1" 1000 rangedS0) =
      { rangedS0 with
        player := { rangedS0.player with inventory := [Weapon.FIST] },
        lastShootTime := 1000,
        wantedLevel := 1,
        entities := [rangedBullet "x1" (0 * (1/2)) (1 * (1/2)) rangedS0] } := by
    rw [hA]
    rfl
  have hstateA : ¬ ((swapWeapon Weapon.FIST (atk "x1" 1000 rangedS0)).player.state
      = EState.driving ∨
      (swapWeapon Weapon.FIST (atk "x1" 1000 rangedS0)).player.state = EState.dead) := by
    rw [hswA]
    decide
  have hwA : (swapWeapon Weapon.FIST (atk "x1" 1000 rangedS0)).player.inventory.headD
      Weapon.FIST = Weapon.FIST := by
    rw [hswA]
    rfl
  have hcoolA : ¬ (1500:ℚ) - (swapWeapon Weapon.FIST (atk "x1" 1000 rangedS0)).lastShootTime
      < 400 := by
    rw [hswA]
    show ¬ (1500:ℚ) - 1000 < 400
    norm_num
  have hmelee := handleAttack_melee_eq (fun _ => 0) (fun _ => 1) "x2" 0 1500
    (swapWeapon Weapon.FIST (atk "x1" 1000 rangedS0)) hstateA hwA
  have hfB := meleeAttack_fields (fun _ => 0) (fun _ => 1) 0 1500
    (swapWeapon Weapon.FIST (atk "x1" 1000 rangedS0)) hcoolA
  have hBstate : (atk "x2" 1500 (swapWeapon Weapon.FIST (atk "x1" 1000 rangedS0))).player.state
      = EState.punching := by
    show (handleAttack _ _ _ _ _ _).player.state = _
    rw [hmelee]
    exact hfB.2.2.2.1
  have hBshoot : (atk "x2" 1500 (swapWeapon Weapon.FIST (atk "x1" 1000 rangedS0))).lastShootTime
      = 1500 := by
    show (handleAttack _ _ _ _ _ _).lastShootTime = _
    rw [hmelee]
    exact hfB.1
  have hBlen : (atk "x2" 1500 (swapWeapon Weapon.FIST (atk "x1" 1000 rangedS0))).entities.length
      = 1 := by
    show (handleAttack _ _ _ _ _ _).entities.length = _
    rw [hmelee]
    unfold meleeAttack
    rw [if_neg hcoolA]
    show (setFirstWhere _ _ _).length = 1
    rw [setFirstWhere_length, hswA]
    rfl
  refine ⟨by rw [hA]; rfl, hBstate, hBlen, by norm_num, ?_⟩
  have hstateC : ¬ ((swapWeapon Weapon.PISTOL (atk "x2" 1500
      (swapWeapon Weapon.FIST (atk "x1" 1000 rangedS0)))).player.state = EState.driving ∨
      (swapWeapon Weapon.PISTOL (atk "x2" 1500
        (swapWeapon Weapon.FIST (atk "x1" 1000 rangedS0)))).player.state = EState.dead) := by
    show ¬ ((atk "x2" 1500 (swapWeapon Weapon.FIST (atk "x1" 1000 rangedS0))).player.state
      = EState.driving ∨
      (atk "x2" 1500 (swapWeapon Weapon.FIST (atk "x1" 1000 rangedS0))).player.state
      = EState.dead)
    rw [hBstate]
    simp
  have hwC : (swapWeapon Weapon.PISTOL (atk "x2" 1500
      (swapWeapon Weapon.FIST (atk "x1" 1000 rangedS0)))).player.inventory.headD Weapon.FIST
      ≠ Weapon.FIST := by
    show Weapon.PISTOL ≠ Weapon.FIST
    simp
  have hcoolC : (1650:ℚ) - (swapWeapon Weapon.PISTOL (atk "x2" 1500
      (swapWeapon Weapon.FIST (atk "x1" 1000 rangedS0)))).lastShootTime < 200 := by
    show (1650:ℚ) - (atk "x2" 1500 (swapWeapon Weapon.FIST
      (atk "x1" 1000 rangedS0))).lastShootTime < 200
    rw [hBshoot]
    norm_num
  show handleAttack _ _ _ _ _ _ = _
  rw [handleAttack_ranged_eq _ _ _ _ _ _ hstateC hwC,
      rangedAttack_blocked _ _ _ _ _ hcoolC]

/-- C6 amended: the ranged fire rate shares one cooldown timestamp with
melee: a ranged shot at time t fires exactly when t minus the time of the
last successful attack of either kind is at least 200 ms.  When it fires it
appends exactly one PROJECTILE whose velocity is 20 times the heading unit
vector (sin yaw, 0, cos yaw) and whose origin is offset half a unit forward
of the shooter at height 1.5; firing sets wantedLevel to 1 when it was 0, a
second shot leaves it at 1, and a shot inside the shared cooldown changes
nothing. -/
theorem C6_ranged_shared_cooldown (sinQ cosQ : ℚ → ℚ) (i1 i2 i3 : String)
    (r1 r2 r3 now1 now2 now3 : ℚ) (s : AttackState)
    (hstate : ¬ (s.player.state = EState.driving ∨ s.player.state = EState.dead))
    (hw : s.player.inventory.headD Weapon.FIST ≠ Weapon.FIST)
    (hwl : s.wantedLevel = 0)
    (h1 : ¬ now1 - s.lastShootTime < 200)
    (h2 : ¬ now2 - now1 < 200)
    (h3 : now3 - now2 < 200) :
    (handleAttack sinQ cosQ i1 r1 now1 s).entities
      = s.entities ++ [rangedBullet i1 (sinQ s.player.rotation.y * (1/2))
          (cosQ s.player.rotation.y * (1/2)) s] ∧
    (handleAttack sinQ cosQ i1 r1 now1 s).lastShootTime = now1 ∧
    (handleAttack sinQ cosQ i1 r1 now1 s).wantedLevel = 1 ∧
    (handleAttack sinQ cosQ i1 r1 now1 s).player = s.player ∧
    (rangedBullet i1 (sinQ s.player.rotation.y * (1/2))
      (cosQ s.player.rotation.y * (1/2)) s).type = EntityType.PROJECTILE ∧
    (rangedBullet i1 (sinQ s.player.rotation.y * (1/2))
      (cosQ s.player.rotation.y * (1/2)) s).vel
      = ⟨sinQ s.player.rotation.y * (1/2) * 40, 0, cosQ s.player.rotation.y * (1/2) * 40⟩ ∧
    (rangedBullet i1 (sinQ s.player.rotation.y * (1/2))
      (cosQ s.player.rotation.y * (1/2)) s).pos
      = ⟨s.player.pos.x + sinQ s.player.rotation.y * (1/2), 3/2,
         s.player.pos.z + cosQ s.player.rotation.y * (1/2)⟩ ∧
    (handleAttack sinQ cosQ i2 r2 now2 (handleAttack sinQ cosQ i1 r1 now1 s)).entities
      = (handleAttack sinQ cosQ i1 r1 now1 s).entities ++
        [rangedBullet i2 (sinQ s.player.rotation.y * (1/2))
          (cosQ s.player.rotation.y * (1/2)) (handleAttack sinQ cosQ i1 r1 now1 s)] ∧
    (handleAttack sinQ cosQ i2 r2 now2 (handleAttack sinQ cosQ i1 r1 now1 s)).wantedLevel = 1 ∧
    handleAttack sinQ cosQ i3 r3 now3 (handleAttack sinQ cosQ i2 r2 now2
        (handleAttack sinQ cosQ i1 r1 now1 s))
      = handleAttack sinQ cosQ i2 r2 now2 (handleAttack sinQ cosQ i1 r1 now1 s) := by
  have hA : handleAttack sinQ cosQ i1 r1 now1 s =
      { s with
        lastShootTime := now1,
        wantedLevel := if s.wantedLevel = 0 then 1 else s.wantedLevel,
        entities := s.entities ++
          [rangedBullet i1 (sinQ s.player.rotation.y * (1/2))
            (cosQ s.player.rotation.y * (1/2)) s] } := by
    rw [handleAttack_ranged_eq _ _ _ _ _ _ hstate hw, rangedAttack_fires _ _ _ _ _ h1]
  have hAwl : (handleAttack sinQ cosQ i1 r1 now1 s).wantedLevel = 1 := by
    rw [hA]
    show (if s.wantedLevel = 0 then 1 else s.wantedLevel) = 1
    rw [if_pos hwl]
  have hAp : (handleAttack sinQ cosQ i1 r1 now1 s).player = s.player := by
    rw [hA]
  have hAshoot : (handleAttack sinQ cosQ i1 r1 now1 s).lastShootTime = now1 := by
    rw [hA]
  have hstateB : ¬ ((handleAttack sinQ cosQ i1 r1 now1 s).player.state = EState.driving ∨
      (handleAttack sinQ cosQ i1 r1 now1 s).player.state = EState.dead) := by
    rw [hAp]
    exact hstate
  have hwB : (handleAttack sinQ cosQ i1 r1 now1 s).player.inventory.headD Weapon.FIST
      ≠ Weapon.FIST := by
    rw [hAp]
    exact hw
  have hcoolB : ¬ now2 - (handleAttack sinQ cosQ i1 r1 now1 s).lastShootTime < 200 := by
    rw [hAshoot]
    exact h2
  have hB : handleAttack sinQ cosQ i2 r2 now2 (handleAttack sinQ cosQ i1 r1 now1 s) =
      { (handleAttack sinQ cosQ i1 r1 now1 s) with
        lastShootTime := now2,
        wantedLevel := if (handleAttack sinQ cosQ i1 r1 now1 s).wantedLevel = 0 then 1
          else (handleAttack sinQ cosQ i1 r1 now1 s).wantedLevel,
        entities := (handleAttack sinQ cosQ i1 r1 now1 s).entities ++
          [rangedBullet i2 (sinQ (handleAttack sinQ cosQ i1 r1 now1 s).player.rotation.y * (1/2))
            (cosQ (handleAttack sinQ cosQ i1 r1 now1 s).player.rotation.y * (1/2))
            (handleAttack sinQ cosQ i1 r1 now1 s)] } := by
    rw [handleAttack_ranged_eq _ _ _ _ _ _ hstateB hwB, rangedAttack_fires _ _ _ _ _ hcoolB]
  have hBwl : (handleAttack sinQ cosQ i2 r2 now2
      (handleAttack sinQ cosQ i1 r1 now1 s)).wantedLevel = 1 := by
    rw [hB]
    show (if (handleAttack sinQ cosQ i1 r1 now1 s).wantedLevel = 0 then 1
      else (handleAttack sinQ cosQ i1 r1 now1 s).wantedLevel) = 1
    rw [hAwl]
    norm_num
  have hBp : (handleAttack sinQ cosQ i2 r2 now2
      (handleAttack sinQ cosQ i1 r1 now1 s)).player = s.player := by
    rw [hB]
    exact hAp
  have hBshoot : (handleAttack sinQ cosQ i2 r2 now2
      (handleAttack sinQ cosQ i1 r1 now1 s)).lastShootTime = now2 := by
    rw [hB]
  refine ⟨by rw [hA], hAshoot, hAwl, hAp, rfl, rfl, rfl, ?_, hBwl, ?_⟩
  · rw [hB, hAp]
  · have hstateC : ¬ ((handleAttack sinQ cosQ i2 r2 now2
        (handleAttack sinQ cosQ i1 r1 now1 s)).player.state = EState.driving ∨
        (handleAttack sinQ cosQ i2 r2 now2
          (handleAttack sinQ cosQ i1 r1 now1 s)).player.state = EState.dead) := by
      rw [hBp]
      exact hstate
    have hwC : (handleAttack sinQ cosQ i2 r2 now2
        (handleAttack sinQ cosQ i1 r1 now1 s)).player.inventory.headD Weapon.FIST
        ≠ Weapon.FIST := by
      rw [hBp]
      exact hw
    have hcoolC : now3 - (handleAttack sinQ cosQ i2 r2 now2
        (handleAttack sinQ cosQ i1 r1 now1 s)).lastShootTime < 200 := by
      rw [hBshoot]
      exact h3
    rw [handleAttack_ranged_eq _ _ _ _ _ _ hstateC hwC, rangedAttack_blocked _ _ _ _ _ hcoolC]

/-- C6 witness: the amended shared-cooldown behaviour evaluated on a concrete
armed state with ranged attempts at times 1000, 1300 and 1400. -/
theorem C6_ranged_shared_cooldown_witness :
    (¬ (rangedS0.player.state = EState.driving ∨ rangedS0.player.state = EState.dead) ∧
     rangedS0.player.inventory.headD Weapon.FIST ≠ Weapon.FIST ∧
     rangedS0.wantedLevel = 0 ∧
     ¬ (1000:ℚ) - rangedS0.lastShootTime < 200 ∧
     ¬ (1300:ℚ) - 1000 < 200 ∧
     (1400:ℚ) - 1300 < 200) ∧
    ((atk "y1" 1000 rangedS0).entities
      = rangedS0.entities ++ [rangedBullet "y1" (0 * (1/2)) (1 * (1/2)) rangedS0] ∧
     (atk "y1" 1000 rangedS0).lastShootTime = 1000 ∧
     (atk "y1" 1000 rangedS0).wantedLevel = 1 ∧
     (atk "y1" 1000 rangedS0).player = rangedS0.player ∧
     (rangedBullet "y1" (0 * (1/2)) (1 * (1/2)) rangedS0).type = EntityType.PROJECTILE ∧
     (rangedBullet "y1" (0 * (1/2)) (1 * (1/2)) rangedS0).vel
       = ⟨0 * (1/2) * 40, 0, 1 * (1/2) * 40⟩ ∧
     (rangedBullet "y1" (0 * (1/2)) (1 * (1/2)) rangedS0).pos
       = ⟨rangedS0.player.pos.x + 0 * (1/2), 3/2, rangedS0.player.pos.z + 1 * (1/2)⟩ ∧
     (atk "y2" 1300 (atk "y1" 1000 rangedS0)).entities
       = (atk "y1" 1000 rangedS0).entities ++
         [rangedBullet "y2" (0 * (1/2)) (1 * (1/2)) (atk "y1" 1000 rangedS0)] ∧
     (atk "y2" 1300 (atk "y1" 1000 rangedS0)).wantedLevel = 1 ∧
     atk "y3" 1400 (atk "y2" 1300 (atk "y1" 1000 rangedS0))
       = atk "y2" 1300 (atk "y1" 1000 rangedS0)) :=
  ⟨⟨by decide, by decide, rfl,
    by show ¬ (1000:ℚ) - 0 < 200; norm_num, by norm_num, by norm_num⟩,
   C6_ranged_shared_cooldown (fun _ => 0) (fun _ => 1) "y1" "y2" "y3"
     0 0 0 1000 1300 1400 rangedS0
     (by decide) (by decide) rfl
     (by show ¬ (1000:ℚ) - 0 < 200; norm_num) (by norm_num) (by norm_num)⟩

/-- C10: when a melee attack kills the first qualifying target (health after
damage at or below zero), the target ends dead with health exactly 0, and the
money increases by floor(rand * 50) + 20 — an integer between 20 and 69 for
rand in [0, 1) — exactly when the target is a CIVILIAN or a GANG_MEMBER, and
stays unchanged for every other entity type. -/
theorem C10_kill_money (sinQ cosQ : ℚ → ℚ) (newId : String) (rand now : ℚ) (s : AttackState)
    (l1 l2 : List Entity) (t : Entity)
    (hstate : ¬ (s.player.state = EState.driving ∨ s.player.state = EState.dead))
    (hw : s.player.inventory.headD Weapon.FIST = Weapon.FIST)
    (hcool : ¬ now - s.lastShootTime < 400)
    (hes : s.entities = l1 ++ t :: l2)
    (hl1 : ∀ u ∈ l1, meleeHitPred s.player.id (sinQ s.player.rotation.y)
      (cosQ s.player.rotation.y) s.player.pos.x s.player.pos.z u = false)
    (ht : meleeHitPred s.player.id (sinQ s.player.rotation.y)
      (cosQ s.player.rotation.y) s.player.pos.x s.player.pos.z t = true)
    (hkill : t.health - ((meleeDamage s now : ℤ) : ℚ) ≤ 0)
    (hr0 : 0 ≤ rand) (hr1 : rand < 1) :
    (handleAttack sinQ cosQ newId rand now s).money =
      s.money + (if t.type = EntityType.CIVILIAN ∨ t.type = EntityType.GANG_MEMBER
                 then ((⌊rand * 50⌋ + 20 : ℤ) : ℚ) else 0) ∧
    (20 ≤ ⌊rand * 50⌋ + 20 ∧ ⌊rand * 50⌋ + 20 ≤ 69) ∧
    (handleAttack sinQ cosQ newId rand now s).entities =
      l1 ++ meleeDamagedTarget (sinQ s.player.rotation.y) (cosQ s.player.rotation.y)
        (comboMultiplier (meleeComboAfter s now)) (meleeDamage s now) t :: l2 ∧
    (meleeDamagedTarget (sinQ s.player.rotation.y) (cosQ s.player.rotation.y)
      (comboMultiplier (meleeComboAfter s now)) (meleeDamage s now) t).state = EState.dead ∧
    (meleeDamagedTarget (sinQ s.player.rotation.y) (cosQ s.player.rotation.y)
      (comboMultiplier (meleeComboAfter s now)) (meleeDamage s now) t).health = 0 := by
  have hfind : s.entities.find? (meleeHitPred s.player.id (sinQ s.player.rotation.y)
      (cosQ s.player.rotation.y) s.player.pos.x s.player.pos.z) = Option.some t := by
    rw [hes]
    exact find_of_split _ t l1 hl1 ht l2
  have heq := handleAttack_melee_eq sinQ cosQ newId rand now s hstate hw
  have heval := meleeAttack_hit_eval sinQ cosQ rand now s t hcool hfind
  have hfloor0 : (0:ℤ) ≤ ⌊rand * 50⌋ := by
    rw [Int.le_floor]
    push_cast
    positivity
  have hfloor49 : ⌊rand * 50⌋ ≤ 49 := by
    have : ⌊rand * 50⌋ < 50 := by
      rw [Int.floor_lt]
      push_cast
      nlinarith
    omega
  refine ⟨?_, ⟨by omega, by omega⟩, ?_, ?_, ?_⟩
  · rw [heq, heval]
    show s.money + _ = s.money + _
    congr 1
    by_cases hty : t.type = EntityType.CIVILIAN ∨ t.type = EntityType.GANG_MEMBER
    · rw [if_pos ⟨hkill, hty⟩, if_pos hty]
    · rw [if_neg (fun h => hty h.2), if_neg hty]
  · rw [heq, heval]
    show setFirstWhere _ _ s.entities = _
    rw [hes]
    exact setFirstWhere_of_split _ _ t l1 hl1 ht l2
  · simp only [meleeDamagedTarget]
    rw [if_pos hkill]
  · simp only [meleeDamagedTarget]
    rw [if_pos hkill]

/-- A concrete nearly-dead civilian one unit ahead of the origin. -/
def npcWeak : Entity := { baseEntity with id := "npc2", pos := ⟨0, 0, 1⟩, health := 5 }

/-- A concrete pre-attack state whose only other entity is a civilian that
the next punch kills. -/
def meleeKillS0 : AttackState := { meleeS0 with entities := [npcWeak] }

/-- C10 witness: the kill-money property evaluated on a concrete state where
the punch at time 2000 (damage 10) kills the 5-health civilian, with the
money roll frozen at one half. -/
theorem C10_kill_money_witness :
    (¬ (meleeKillS0.player.state = EState.driving ∨ meleeKillS0.player.state = EState.dead) ∧
     meleeKillS0.player.inventory.headD Weapon.FIST = Weapon.FIST ∧
     (¬ (2000:ℚ) - meleeKillS0.lastShootTime < 400) ∧
     meleeKillS0.entities = [] ++ npcWeak :: [] ∧
     meleeHitPred meleeKillS0.player.id ((fun _ => (0:ℚ)) meleeKillS0.player.rotation.y)
       ((fun _ => (1:ℚ)) meleeKillS0.player.rotation.y)
       meleeKillS0.player.pos.x meleeKillS0.player.pos.z npcWeak = true ∧
     npcWeak.health - ((meleeDamage meleeKillS0 2000 : ℤ) : ℚ) ≤ 0 ∧
     (0:ℚ) ≤ 1/2 ∧ (1/2:ℚ) < 1) ∧
    ((handleAttack (fun _ => 0) (fun _ => 1) "m" (1/2) 2000 meleeKillS0).money =
      meleeKillS0.money +
        (if npcWeak.type = EntityType.CIVILIAN ∨ npcWeak.type = EntityType.GANG_MEMBER
         then ((⌊(1/2 : ℚ) * 50⌋ + 20 : ℤ) : ℚ) else 0) ∧
     (20 ≤ ⌊(1/2 : ℚ) * 50⌋ + 20 ∧ ⌊(1/2 : ℚ) * 50⌋ + 20 ≤ 69) ∧
     (handleAttack (fun _ => 0) (fun _ => 1) "m" (1/2) 2000 meleeKillS0).entities =
       [] ++ meleeDamagedTarget ((fun _ => (0:ℚ)) meleeKillS0.player.rotation.y)
         ((fun _ => (1:ℚ)) meleeKillS0.player.rotation.y)
         (comboMultiplier (meleeComboAfter meleeKillS0 2000))
         (meleeDamage meleeKillS0 2000) npcWeak :: [] ∧
     (meleeDamagedTarget ((fun _ => (0:ℚ)) meleeKillS0.player.rotation.y)
       ((fun _ => (1:ℚ)) meleeKillS0.player.rotation.y)
       (comboMultiplier (meleeComboAfter meleeKillS0 2000))
       (meleeDamage meleeKillS0 2000) npcWeak).state = EState.dead ∧
     (meleeDamagedTarget ((fun _ => (0:ℚ)) meleeKillS0.player.rotation.y)
       ((fun _ => (1:ℚ)) meleeKillS0.player.rotation.y)
       (comboMultiplier (meleeComboAfter meleeKillS0 2000))
       (meleeDamage meleeKillS0 2000) npcWeak).health = 0) :=
  ⟨⟨by decide, rfl,
    by show ¬ (2000:ℚ) - 0 < 400; norm_num,
    rfl,
    by
      simp only [meleeHitPred, meleeTargetable, meleeInCone, Bool.and_eq_true, decide_eq_true_eq,
        meleeKillS0, meleeS0, meleePlayer, npcWeak, baseEntity]
      refine ⟨⟨by simp, by simp, by simp, by simp, by simp, by simp⟩, by norm_num⟩,
    by
      have hdmg : meleeDamage meleeKillS0 2000 = 10 := by
        unfold meleeDamage comboMultiplier meleeComboAfter meleeComboResetTime
        rw [if_pos (by show (2000:ℚ) - 0 > 1000; norm_num)]
        norm_num
      rw [hdmg]
      show (5:ℚ) - ((10:ℤ):ℚ) ≤ 0
      norm_num,
    by norm_num, by norm_num⟩,
   C10_kill_money (fun _ => 0) (fun _ => 1) "m" (1/2) 2000 meleeKillS0 [] [] npcWeak
     (by decide) rfl
     (by show ¬ (2000:ℚ) - 0 < 400; norm_num)
     rfl
     (by intro u hu; cases hu)
     (by
       simp only [meleeHitPred, meleeTargetable, meleeInCone, Bool.and_eq_true, decide_eq_true_eq,
         meleeKillS0, meleeS0, meleePlayer, npcWeak, baseEntity]
       refine ⟨⟨by simp, by simp, by simp, by simp, by simp, by simp⟩, by norm_num⟩)
     (by
       have hdmg : meleeDamage meleeKillS0 2000 = 10 := by
         unfold meleeDamage comboMultiplier meleeComboAfter meleeComboResetTime
         rw [if_pos (by show (2000:ℚ) - 0 > 1000; norm_num)]
         norm_num
       rw [hdmg]
       show (5:ℚ) - ((10:ℤ):ℚ) ≤ 0
       norm_num)
     (by norm_num) (by norm_num)⟩

/-
Death, respawn and the per-frame environment (ground/water) interaction,
from src/components/GameScene.tsx: handleDeath (lines 241 to 259) and the
drowning/ground/out-of-bounds block of useFrame (lines 355 to 390).
-/

/-- The slice of GameState plus the isWasted ref that the death and
environment code reads and writes. -/
structure FrameState where
  player : Entity
  entities : List Entity
  wantedLevel : ℤ
  isWasted : Bool
deriving DecidableEq

/-- SPAWN_COORDS from src/utils/worldGen.ts. -/
def SPAWN_COORDS_X : ℚ := 50

/-- SPAWN_COORDS from src/utils/worldGen.ts. -/
def SPAWN_COORDS_Z : ℚ := 50

/-- The respawn delay of handleDeath (milliseconds). -/
def RESPAWN_DELAY_MS : ℚ := 4000

/-- handleDeath from GameScene.tsx lines 241 to 248: guarded by isWasted, it
marks the player dead and raises the flag.  The deferred respawn is
respawnTimeout below. -/
def handleDeath (s : FrameState) : FrameState :=
  if s.isWasted then s
  else { s with player := { s.player with state := EState.dead }, isWasted := true }

/-- The respawn callback of handleDeath (GameScene.tsx lines 249 to 258),
run after RESPAWN_DELAY_MS: restore health, state, spawn position and zero
velocity, clear the player vehicle link, reset the wanted level and lower
the flag.  Note it touches only the player, the wanted level and the flag;
the entity list is left as it is. -/
def respawnTimeout (s : FrameState) : FrameState :=
  { s with
    player := { s.player with
      health := 100,
      state := EState.idle,
      pos := ⟨SPAWN_COORDS_X * TILE_SIZE, 1/2, SPAWN_COORDS_Z * TILE_SIZE⟩,
      vel := ⟨0, 0, 0⟩,
      vehicleId := Option.none },
    wantedLevel := 0,
    isWasted := false }

/-- damp from src/utils/math.ts: lerp(current, target, 1 - exp(-lambda*dt)),
with Math.exp given by the oracle expQ. -/
def damp (expQ : ℚ → ℚ) (current target lambda dt : ℚ) : ℚ :=
  current + (target - current) * (1 - expQ (-(lambda * dt)))

/-- The map as read by the frame loop: dimensions plus tile and elevation
lookup by (row, column). -/
structure GameMapF where
  width : ℤ
  height : ℤ
  tiles : ℤ → ℤ → TileType
  elevations : ℤ → ℤ → ℚ

/-- The body of the WATER branch (GameScene.tsx lines 362 to 376): sink the
vertical position toward -1.2, multiply the horizontal velocity by 0.9,
subtract 25 * delta health, and trigger handleDeath when health reaches
zero or below. -/
def drownUpdate (expQ : ℚ → ℚ) (δ : ℚ) (s : FrameState) : FrameState :=
  if s.player.health - 25 * δ ≤ 0 then
    handleDeath { s with player := { s.player with
      pos := ⟨s.player.pos.x, damp expQ s.player.pos.y (-(6/5)) 2 δ, s.player.pos.z⟩,
      vel := ⟨s.player.vel.x * (9/10), s.player.vel.y, s.player.vel.z * (9/10)⟩,
      health := s.player.health - 25 * δ } }
  else { s with player := { s.player with
    pos := ⟨s.player.pos.x, damp expQ s.player.pos.y (-(6/5)) 2 δ, s.player.pos.z⟩,
    vel := ⟨s.player.vel.x * (9/10), s.player.vel.y, s.player.vel.z * (9/10)⟩,
    health := s.player.health - 25 * δ } }

/-- The environment phase of useFrame (GameScene.tsx lines 355 to 390): the
frame is a no-op once isWasted is set (line 266); otherwise resolve the
player tile, drown on in-bounds water when on foot, damp toward the ground
elevation plus 0.05 on dry land when on foot, and kill instantly out of
bounds. -/
def environmentFrame (expQ : ℚ → ℚ) (map : GameMapF) (δ : ℚ) (s : FrameState) : FrameState :=
  if s.isWasted then s
  else if 0 ≤ ⌊s.player.pos.x / TILE_SIZE⌋ ∧ ⌊s.player.pos.x / TILE_SIZE⌋ < map.width ∧
          0 ≤ ⌊s.player.pos.z / TILE_SIZE⌋ ∧ ⌊s.player.pos.z / TILE_SIZE⌋ < map.height then
    if map.tiles ⌊s.player.pos.z / TILE_SIZE⌋ ⌊s.player.pos.x / TILE_SIZE⌋ = TileType.WATER ∧
       s.player.vehicleId = Option.none then
      drownUpdate expQ δ s
    else if s.player.vehicleId = Option.none then
      { s with player := { s.player with
        pos := ⟨s.player.pos.x,
          damp expQ s.player.pos.y
            (map.elevations ⌊s.player.pos.z / TILE_SIZE⌋ ⌊s.player.pos.x / TILE_SIZE⌋ + 1/20)
            10 δ,
          s.player.pos.z⟩ } }
    else s
  else handleDeath { s with player := { s.player with health := 0 } }

/-- The invariant maintained while the player drowns at the fixed horizontal
position (x0, z0): either death has already triggered (flag up, state dead,
health at or below zero), or the frame flag is down, the position and the
missing vehicle link are unchanged, and health is exactly 100 minus 25 times
the accumulated simulated time, still positive. -/
def DrownInv (x0 z0 c : ℚ) (s : FrameState) : Prop :=
  (s.isWasted = true ∧ s.player.state = EState.dead ∧ s.player.health ≤ 0) ∨
  (s.isWasted = false ∧ s.player.pos.x = x0 ∧ s.player.pos.z = z0 ∧
   s.player.vehicleId = Option.none ∧
   s.player.health = 100 - 25 * c ∧ 0 < s.player.health)

theorem drown_step (expQ : ℚ → ℚ) (map : GameMapF) (x0 z0 : ℚ)
    (hb : 0 ≤ ⌊x0 / TILE_SIZE⌋ ∧ ⌊x0 / TILE_SIZE⌋ < map.width ∧
          0 ≤ ⌊z0 / TILE_SIZE⌋ ∧ ⌊z0 / TILE_SIZE⌋ < map.height)
    (hw : map.tiles ⌊z0 / TILE_SIZE⌋ ⌊x0 / TILE_SIZE⌋ = TileType.WATER)
    (d c : ℚ) (s : FrameState) (hI : DrownInv x0 z0 c s) :
    DrownInv x0 z0 (c + d) (environmentFrame expQ map d s) := by
  rcases hI with ⟨h1, h2, h3⟩ | ⟨h1, hx, hz, hv, hh, hlive⟩
  · unfold environmentFrame
    rw [if_pos h1]
    exact Or.inl ⟨h1, h2, h3⟩
  · unfold environmentFrame
    rw [if_neg (by rw [h1]; exact Bool.false_ne_true), hx, hz, if_pos hb, if_pos ⟨hw, hv⟩]
    unfold drownUpdate
    by_cases hdie : s.player.health - 25 * d ≤ 0
    · rw [if_pos hdie]
      unfold handleDeath
      rw [if_neg (by rw [h1]; exact Bool.false_ne_true)]
      exact Or.inl ⟨rfl, rfl, hdie⟩
    · rw [if_neg hdie]
      refine Or.inr ⟨h1, hx, hz, hv, ?_, ?_⟩
      · show s.player.health - 25 * d = _
        rw [hh]
        ring
      · show 0 < s.player.health - 25 * d
        exact lt_of_not_le hdie

theorem drown_fold (expQ : ℚ → ℚ) (map : GameMapF) (x0 z0 : ℚ)
    (hb : 0 ≤ ⌊x0 / TILE_SIZE⌋ ∧ ⌊x0 / TILE_SIZE⌋ < map.width ∧
          0 ≤ ⌊z0 / TILE_SIZE⌋ ∧ ⌊z0 / TILE_SIZE⌋ < map.height)
    (hw : map.tiles ⌊z0 / TILE_SIZE⌋ ⌊x0 / TILE_SIZE⌋ = TileType.WATER) :
    ∀ (ds : List ℚ) (c : ℚ) (s : FrameState), DrownInv x0 z0 c s →
      DrownInv x0 z0 (c + ds.sum) (ds.foldl (fun st d => environmentFrame expQ map d st) s) := by
  intro ds
  induction ds with
  | nil =>
    intro c s h
    simpa using h
  | cons d ds ih =>
    intro c s h
    have h2 := drown_step expQ map x0 z0 hb hw d c s h
    have h3 := ih (c + d) _ h2
    rw [List.sum_cons, ← add_assoc]
    exact h3

/-- C3: on an in-bounds WATER tile with no vehicle, simulated frames whose
deltas total at least 4 seconds take the player from health 100 to health at
or below 0 and state dead with the wasted flag up; the deferred respawn then
restores health 100, state idle, the spawn position (50, 50 in tile
coordinates, times TILE_SIZE), zero velocity and wanted level 0. -/
theorem C3_drowning_death_respawn (expQ : ℚ → ℚ) (map : GameMapF) (ds : List ℚ)
    (s0 : FrameState)
    (hb : 0 ≤ ⌊s0.player.pos.x / TILE_SIZE⌋ ∧ ⌊s0.player.pos.x / TILE_SIZE⌋ < map.width ∧
          0 ≤ ⌊s0.player.pos.z / TILE_SIZE⌋ ∧ ⌊s0.player.pos.z / TILE_SIZE⌋ < map.height)
    (hw : map.tiles ⌊s0.player.pos.z / TILE_SIZE⌋ ⌊s0.player.pos.x / TILE_SIZE⌋
      = TileType.WATER)
    (hveh : s0.player.vehicleId = Option.none)
    (hflag : s0.isWasted = false)
    (hh : s0.player.health = 100)
    (hpos : ∀ d ∈ ds, 0 < d)
    (hsum : 4 ≤ ds.sum) :
    (ds.foldl (fun st d => environmentFrame expQ map d st) s0).player.health ≤ 0 ∧
    (ds.foldl (fun st d => environmentFrame expQ map d st) s0).player.state = EState.dead ∧
    (ds.foldl (fun st d => environmentFrame expQ map d st) s0).isWasted = true ∧
    (respawnTimeout (ds.foldl (fun st d => environmentFrame expQ map d st) s0)).player.health
      = 100 ∧
    (respawnTimeout (ds.foldl (fun st d => environmentFrame expQ map d st) s0)).player.state
      = EState.idle ∧
    (respawnTimeout (ds.foldl (fun st d => environmentFrame expQ map d st) s0)).player.pos
      = ⟨50 * TILE_SIZE, 1/2, 50 * TILE_SIZE⟩ ∧
    (respawnTimeout (ds.foldl (fun st d => environmentFrame expQ map d st) s0)).player.vel
      = ⟨0, 0, 0⟩ ∧
    (respawnTimeout (ds.foldl (fun st d => environmentFrame expQ map d st) s0)).wantedLevel
      = 0 := by
  have hinit : DrownInv s0.player.pos.x s0.player.pos.z 0 s0 := by
    refine Or.inr ⟨hflag, rfl, rfl, hveh, by rw [hh]; ring, by rw [hh]; norm_num⟩
  have hfin := drown_fold expQ map s0.player.pos.x s0.player.pos.z hb hw ds 0 s0 hinit
  rw [zero_add] at hfin
  have hdead : (ds.foldl (fun st d => environmentFrame expQ map d st) s0).player.health ≤ 0 ∧
      (ds.foldl (fun st d => environmentFrame expQ map d st) s0).player.state = EState.dead ∧
      (ds.foldl (fun st d => environmentFrame expQ map d st) s0).isWasted = true := by
    rcases hfin with ⟨h1, h2, h3⟩ | ⟨h1, hx, hz, hv, hhf, hlive⟩
    · exact ⟨h3, h2, h1⟩
    · exfalso
      have : (100:ℚ) - 25 * ds.sum ≤ 0 := by nlinarith
      rw [hhf] at hlive
      linarith
  exact ⟨hdead.1, hdead.2.1, hdead.2.2, rfl, rfl, rfl, rfl, rfl⟩

/-- An all-water map of the generated dimensions. -/
def waterMap : GameMapF :=
  { width := 100, height := 100,
    tiles := fun _ _ => TileType.WATER,
    elevations := fun _ _ => 0 }

/-- A concrete on-foot player entity standing at the spawn point. -/
def drownPlayer : Entity :=
  { baseEntity with id := "player", type := EntityType.PLAYER, pos := ⟨500, 1/2, 500⟩ }

/-- A concrete state: the on-foot player at the spawn point of an all-water
map, full health, flag down. -/
def drownS0 : FrameState :=
  { player := drownPlayer, entities := [], wantedLevel := 0, isWasted := false }

theorem drownS0_bounds :
    0 ≤ ⌊drownS0.player.pos.x / TILE_SIZE⌋ ∧ ⌊drownS0.player.pos.x / TILE_SIZE⌋ < waterMap.width ∧
    0 ≤ ⌊drownS0.player.pos.z / TILE_SIZE⌋ ∧
    ⌊drownS0.player.pos.z / TILE_SIZE⌋ < waterMap.height := by
  show (0:ℤ) ≤ ⌊(500:ℚ)/10⌋ ∧ ⌊(500:ℚ)/10⌋ < 100 ∧ (0:ℤ) ≤ ⌊(500:ℚ)/10⌋ ∧ ⌊(500:ℚ)/10⌋ < 100
  norm_num

theorem drownS0_deltas : ∀ d ∈ ([4] : List ℚ), 0 < d := by
  intro d hd
  simp at hd
  simp [hd]

theorem drownS0_total : (4:ℚ) ≤ ([4] : List ℚ).sum := by simp

/-- C3 witness: one 4-second frame on water kills the concrete player and
the respawn restores the documented fields. -/
theorem C3_drowning_death_respawn_witness :
    ((0 ≤ ⌊drownS0.player.pos.x / TILE_SIZE⌋ ∧ ⌊drownS0.player.pos.x / TILE_SIZE⌋ < waterMap.width ∧
      0 ≤ ⌊drownS0.player.pos.z / TILE_SIZE⌋ ∧ ⌊drownS0.player.pos.z / TILE_SIZE⌋ < waterMap.height) ∧
     waterMap.tiles ⌊drownS0.player.pos.z / TILE_SIZE⌋ ⌊drownS0.player.pos.x / TILE_SIZE⌋
       = TileType.WATER ∧
     drownS0.player.vehicleId = Option.none ∧
     drownS0.isWasted = false ∧
     drownS0.player.health = 100 ∧
     (∀ d ∈ ([4] : List ℚ), 0 < d) ∧
     (4:ℚ) ≤ ([4] : List ℚ).sum) ∧
    ((([4] : List ℚ).foldl (fun st d => environmentFrame (fun _ => 1/2) waterMap d st)
        drownS0).player.health ≤ 0 ∧
     (([4] : List ℚ).foldl (fun st d => environmentFrame (fun _ => 1/2) waterMap d st)
        drownS0).player.state = EState.dead ∧
     (([4] : List ℚ).foldl (fun st d => environmentFrame (fun _ => 1/2) waterMap d st)
        drownS0).isWasted = true ∧
     (respawnTimeout (([4] : List ℚ).foldl
        (fun st d => environmentFrame (fun _ => 1/2) waterMap d st) drownS0)).player.health
       = 100 ∧
     (respawnTimeout (([4] : List ℚ).foldl
        (fun st d => environmentFrame (fun _ => 1/2) waterMap d st) drownS0)).player.state
       = EState.idle ∧
     (respawnTimeout (([4] : List ℚ).foldl
        (fun st d => environmentFrame (fun _ => 1/2) waterMap d st) drownS0)).player.pos
       = ⟨50 * TILE_SIZE, 1/2, 50 * TILE_SIZE⟩ ∧
     (respawnTimeout (([4] : List ℚ).foldl
        (fun st d => environmentFrame (fun _ => 1/2) waterMap d st) drownS0)).player.vel
       = ⟨0, 0, 0⟩ ∧
     (respawnTimeout (([4] : List ℚ).foldl
        (fun st d => environmentFrame (fun _ => 1/2) waterMap d st) drownS0)).wantedLevel
       = 0) :=
  ⟨⟨drownS0_bounds, rfl, rfl, rfl, rfl, drownS0_deltas, drownS0_total⟩,
   C3_drowning_death_respawn (fun _ => 1/2) waterMap [4] drownS0
     drownS0_bounds rfl rfl rfl rfl drownS0_deltas drownS0_total⟩

/-
Vehicle interaction: the entering_vehicle branch of useFrame
(GameScene.tsx lines 392 to 417) and the F-key enter/exit handler of
GameCanvas (handleKeyDown lines 272 to 296).
-/

/-- The entering_vehicle branch of useFrame (GameScene.tsx lines 392 to
417).  Oracles: sinQ and cosQ for Math.sin and Math.cos, atanQ for
Math.atan2; the parameter d stands for Math.sqrt(dx*dx + dz*dz) for the
current offset (theorems constrain it by 0 ≤ d and d^2 = dx^2 + dz^2).  The
side offset is (-1.5, 0, 0) rotated about the y axis by the vehicle yaw,
which is (-1.5 cos yaw, 0, 1.5 sin yaw).  When targetEntityId is unset the
branch is not entered and the frame falls through to the movement branches,
which are outside this model, so this function is the identity there. -/
def enteringVehicleFrame (sinQ cosQ : ℚ → ℚ) (atanQ : ℚ → ℚ → ℚ) (d δ : ℚ)
    (p : Entity) (es : List Entity) : Entity × List Entity :=
  match p.targetEntityId with
  | Option.none => (p, es)
  | Option.some tid =>
    match es.find? (fun e => e.id == tid) with
    | Option.none => ({ p with state := EState.idle }, es)
    | Option.some car =>
      let dx := car.pos.x + -(3/2) * cosQ car.rotation.y - p.pos.x
      let dz := car.pos.z + (3/2) * sinQ car.rotation.y - p.pos.z
      if d < 1/2 then
        ({ p with
           vehicleId := Option.some car.id,
           state := EState.driving,
           targetEntityId := Option.none,
           vel := ⟨0, 0, 0⟩,
           pos := car.pos },
         setFirstWhere (fun e => e.id == tid)
           (fun c => { c with vehicleId := Option.some p.id }) es)
      else
        ({ p with
           pos := ⟨p.pos.x + dx / d * (6 * δ), p.pos.y, p.pos.z + dz / d * (6 * δ)⟩,
           rotation := ⟨p.rotation.x, atanQ dx dz, p.rotation.z⟩,
           vel := ⟨dx / d * 5, 0, dz / d * 5⟩ }, es)

/-- The per-vehicle test of the F-key enter scan (WorldProp.tsx part,
GameCanvas line 290): a VEHICLE within horizontal distance 5 of the player.
The source compares Math.sqrt of the squared distance with 5; this is the
equivalent squared form. -/
def vehicleInRange (p e : Entity) : Bool :=
  decide (e.type = EntityType.VEHICLE ∧
          (p.pos.x - e.pos.x)^2 + (p.pos.z - e.pos.z)^2 < 25)

/-- The F-key branch of the GameCanvas handleKeyDown (lines 272 to 296):
ignored while entering or exiting; when occupied, detach both vehicleId
links, move to the door offset and set the walk-away target; when
unoccupied, target the first vehicle in entity order within range 5 and
switch to entering_vehicle. -/
def fKeyHandler (sinQ cosQ : ℚ → ℚ) (p : Entity) (es : List Entity) : Entity × List Entity :=
  if p.state = EState.entering_vehicle ∨ p.state = EState.exiting_vehicle then (p, es) else
  match p.vehicleId with
  | Option.some vid =>
    match es.find? (fun e => e.id == vid) with
    | Option.some car =>
      ({ p with
         state := EState.exiting_vehicle,
         vehicleId := Option.none,
         pos := ⟨car.pos.x + -(6/5) * cosQ car.rotation.y, car.pos.y,
                 car.pos.z + (6/5) * sinQ car.rotation.y⟩,
         targetPos := Option.some ⟨car.pos.x + -3 * cosQ car.rotation.y, car.pos.y,
                 car.pos.z + 3 * sinQ car.rotation.y⟩ },
       setFirstWhere (fun e => e.id == vid)
         (fun c => { c with vehicleId := Option.none }) es)
    | Option.none => (p, es)
  | Option.none =>
    match es.find? (fun e => vehicleInRange p e) with
    | Option.some car =>
      ({ p with
         state := EState.entering_vehicle,
         targetEntityId := Option.some car.id }, es)
    | Option.none => (p, es)

/-- C8: in state entering_vehicle with a targetEntityId that matches no
entity in the list, the frame step falls back to state idle, leaving the
position, health and the entity list untouched (and, being a total
function, raises nothing). -/
theorem C8_missing_vehicle_falls_back_idle (sinQ cosQ : ℚ → ℚ) (atanQ : ℚ → ℚ → ℚ)
    (d δ : ℚ) (p : Entity) (es : List Entity) (tid : String)
    (hstate : p.state = EState.entering_vehicle)
    (htid : p.targetEntityId = Option.some tid)
    (habsent : ∀ u ∈ es, (u.id == tid) = false) :
    enteringVehicleFrame sinQ cosQ atanQ d δ p es = ({ p with state := EState.idle }, es) ∧
    (enteringVehicleFrame sinQ cosQ atanQ d δ p es).1.pos = p.pos ∧
    (enteringVehicleFrame sinQ cosQ atanQ d δ p es).1.health = p.health ∧
    (enteringVehicleFrame sinQ cosQ atanQ d δ p es).1.state = EState.idle ∧
    (enteringVehicleFrame sinQ cosQ atanQ d δ p es).2 = es := by
  have hmain : enteringVehicleFrame sinQ cosQ atanQ d δ p es
      = ({ p with state := EState.idle }, es) := by
    unfold enteringVehicleFrame
    rw [htid]
    dsimp only
    rw [find_of_none _ es habsent]
  exact ⟨hmain, by rw [hmain], by rw [hmain], by rw [hmain], by rw [hmain]⟩

/-- A concrete player stuck entering a vehicle that no longer exists. -/
def ghostTargetPlayer : Entity :=
  { baseEntity with
    id := "player",
    state := EState.entering_vehicle,
    targetEntityId := Option.some "ghost" }

/-- C8 witness: the fallback evaluated with a concrete dangling target and
an empty entity list. -/
theorem C8_missing_vehicle_falls_back_idle_witness :
    (ghostTargetPlayer.state = EState.entering_vehicle ∧
     ghostTargetPlayer.targetEntityId = Option.some "ghost" ∧
     (∀ u ∈ ([] : List Entity), (u.id == "ghost") = false)) ∧
    (enteringVehicleFrame (fun _ => 0) (fun _ => 1) (fun _ _ => 0) 0 1 ghostTargetPlayer []
       = ({ ghostTargetPlayer with state := EState.idle }, []) ∧
     (enteringVehicleFrame (fun _ => 0) (fun _ => 1) (fun _ _ => 0) 0 1
        ghostTargetPlayer []).1.pos = ghostTargetPlayer.pos ∧
     (enteringVehicleFrame (fun _ => 0) (fun _ => 1) (fun _ _ => 0) 0 1
        ghostTargetPlayer []).1.health = ghostTargetPlayer.health ∧
     (enteringVehicleFrame (fun _ => 0) (fun _ => 1) (fun _ _ => 0) 0 1
        ghostTargetPlayer []).1.state = EState.idle ∧
     (enteringVehicleFrame (fun _ => 0) (fun _ => 1) (fun _ _ => 0) 0 1
        ghostTargetPlayer []).2 = ([] : List Entity)) :=
  ⟨⟨rfl, rfl, by intro u hu; cases hu⟩,
   C8_missing_vehicle_falls_back_idle (fun _ => 0) (fun _ => 1) (fun _ _ => 0) 0 1
     ghostTargetPlayer [] "ghost" rfl rfl (by intro u hu; cases hu)⟩

/-- A concrete idle, unoccupied player at the origin. -/
def fPlayer : Entity := { baseEntity with id := "player" }

/-- A concrete vehicle 4 units from the player (within interaction range). -/
def vFar : Entity :=
  { baseEntity with
    id := "v1",
    type := EntityType.VEHICLE,
    pos := ⟨4, 0, 0⟩ }

/-- A concrete vehicle 1 unit from the player (the nearest one). -/
def vNear : Entity :=
  { baseEntity with
    id := "v2",
    type := EntityType.VEHICLE,
    pos := ⟨1, 0, 0⟩ }

theorem vFar_in_range : vehicleInRange fPlayer vFar = true := by
  simp only [vehicleInRange, decide_eq_true_eq, fPlayer, vFar, baseEntity]
  norm_num

theorem vNear_in_range : vehicleInRange fPlayer vNear = true := by
  simp only [vehicleInRange, decide_eq_true_eq, fPlayer, vNear, baseEntity]
  norm_num

/-- C7 counterexample: with two vehicles in range, the F-key enter scan
targets the first one in entity-list order (distance 4), not the nearest
one (distance 1): Array.prototype.find returns the first match, with no
distance minimisation. -/
theorem C7_first_found_not_nearest :
    (fKeyHandler (fun _ => 0) (fun _ => 1) fPlayer [vFar, vNear]).1.targetEntityId
      = Option.some "v1" ∧
    (fKeyHandler (fun _ => 0) (fun _ => 1) fPlayer [vFar, vNear]).1.state
      = EState.entering_vehicle ∧
    vehicleInRange fPlayer vNear = true ∧
    (fPlayer.pos.x - vNear.pos.x)^2 + (fPlayer.pos.z - vNear.pos.z)^2
      < (fPlayer.pos.x - vFar.pos.x)^2 + (fPlayer.pos.z - vFar.pos.z)^2 ∧
    ("v1" : String) ≠ "v2" := by
  have hfind : [vFar, vNear].find? (fun e => vehicleInRange fPlayer e) = Option.some vFar := by
    simp [List.find?, vFar_in_range]
  have heval : fKeyHandler (fun _ => 0) (fun _ => 1) fPlayer [vFar, vNear]
      = ({ fPlayer with
           state := EState.entering_vehicle,
           targetEntityId := Option.some vFar.id }, [vFar, vNear]) := by
    unfold fKeyHandler
    rw [if_neg (by decide), (show fPlayer.vehicleId = Option.none from rfl)]
    dsimp only
    rw [hfind]
    rfl
  refine ⟨by rw [heval]; rfl, by rw [heval], vNear_in_range, ?_, by simp⟩
  norm_num [fPlayer, vNear, vFar, baseEntity]

/-- C7 amended: when the player is unoccupied and not mid-transition, the
F key targets the first vehicle in entity-list order within interaction
range (squared distance below 25) — not necessarily the nearest — and
switches the player to entering_vehicle with that vehicle recorded in
targetEntityId; when no vehicle is in range nothing changes. -/
theorem C7_enter_first_in_range (sinQ cosQ : ℚ → ℚ) (p car : Entity)
    (l1 l2 es2 : List Entity)
    (hg : ¬ (p.state = EState.entering_vehicle ∨ p.state = EState.exiting_vehicle))
    (hv : p.vehicleId = Option.none)
    (hcar : vehicleInRange p car = true)
    (hl1 : ∀ u ∈ l1, vehicleInRange p u = false)
    (h2 : ∀ u ∈ es2, vehicleInRange p u = false) :
    fKeyHandler sinQ cosQ p (l1 ++ car :: l2)
      = ({ p with
           state := EState.entering_vehicle,
           targetEntityId := Option.some car.id }, l1 ++ car :: l2) ∧
    car.type = EntityType.VEHICLE ∧
    (p.pos.x - car.pos.x)^2 + (p.pos.z - car.pos.z)^2 < 25 ∧
    fKeyHandler sinQ cosQ p es2 = (p, es2) := by
  have hprops := of_decide_eq_true hcar
  have hfind : (l1 ++ car :: l2).find? (fun e => vehicleInRange p e) = Option.some car :=
    find_of_split _ car l1 hl1 hcar l2
  have hmain : fKeyHandler sinQ cosQ p (l1 ++ car :: l2)
      = ({ p with
           state := EState.entering_vehicle,
           targetEntityId := Option.some car.id }, l1 ++ car :: l2) := by
    unfold fKeyHandler
    rw [if_neg hg, hv]
    dsimp only
    rw [hfind]
  have hnone : fKeyHandler sinQ cosQ p es2 = (p, es2) := by
    unfold fKeyHandler
    rw [if_neg hg, hv]
    dsimp only
    rw [find_of_none _ es2 h2]
  exact ⟨hmain, hprops.1, hprops.2, hnone⟩

/-- C7 witness: the amended first-in-range rule evaluated with the single
concrete in-range vehicle and with an empty list. -/
theorem C7_enter_first_in_range_witness :
    ((¬ (fPlayer.state = EState.entering_vehicle ∨ fPlayer.state = EState.exiting_vehicle)) ∧
     fPlayer.vehicleId = Option.none ∧
     vehicleInRange fPlayer vNear = true ∧
     (∀ u ∈ ([] : List Entity), vehicleInRange fPlayer u = false)) ∧
    (fKeyHandler (fun _ => 0) (fun _ => 1) fPlayer ([] ++ vNear :: [])
       = ({ fPlayer with
            state := EState.entering_vehicle,
            targetEntityId := Option.some vNear.id }, [] ++ vNear :: []) ∧
     vNear.type = EntityType.VEHICLE ∧
     (fPlayer.pos.x - vNear.pos.x)^2 + (fPlayer.pos.z - vNear.pos.z)^2 < 25 ∧
     fKeyHandler (fun _ => 0) (fun _ => 1) fPlayer [] = (fPlayer, [])) :=
  ⟨⟨by decide, rfl, vNear_in_range, by intro u hu; cases hu⟩,
   C7_enter_first_in_range (fun _ => 0) (fun _ => 1) fPlayer vNear [] [] []
     (by decide) rfl vNear_in_range (by intro u hu; cases hu) (by intro u hu; cases hu)⟩

/-- A concrete dead player still holding a vehicle back-reference. -/
def deadDriver : Entity :=
  { baseEntity with
    id := "player",
    state := EState.dead,
    vehicleId := Option.some "car1" }

/-- A concrete vehicle whose vehicleId still points at the dead driver. -/
def linkedCar : Entity :=
  { baseEntity with
    id := "car1",
    type := EntityType.VEHICLE,
    vehicleId := Option.some "player" }

/-- A concrete post-death state with a mutually linked player and car. -/
def deadDriveS : FrameState :=
  { player := deadDriver, entities := [linkedCar], wantedLevel := 0, isWasted := true }

/-- C1 counterexample: the respawn step of the death procedure clears the
dead driver side of the vehicleId link but never touches the vehicle, so
after respawn the player side is cleared while the vehicle still points at
the player: the two sides are not cleared together in that operation. -/
theorem C1_respawn_leaves_dangling_link :
    deadDriveS.player.vehicleId = Option.some "car1" ∧
    (respawnTimeout deadDriveS).player.vehicleId = Option.none ∧
    (respawnTimeout deadDriveS).entities.head?.map (fun v => v.vehicleId)
      = Option.some (Option.some "player") ∧
    (respawnTimeout deadDriveS).entities = deadDriveS.entities :=
  ⟨rfl, rfl, rfl, rfl⟩

/-- C1 amended: the vehicleId back-reference is set on both sides by entry
completion and cleared on both sides by the exit request, but the
death/respawn procedure clears only the character side: respawn sets the
player vehicleId to null while leaving every entity, in particular the
occupied vehicle and its vehicleId, unchanged. -/
theorem C1_vehicle_link_sides (sinQ cosQ : ℚ → ℚ) (atanQ : ℚ → ℚ → ℚ) (d δ : ℚ)
    (pA carA : Entity) (l1A l2A : List Entity)
    (sinB cosB : ℚ → ℚ) (pB carB : Entity) (l1B l2B : List Entity)
    (sC : FrameState)
    (htidA : pA.targetEntityId = Option.some carA.id)
    (hl1A : ∀ u ∈ l1A, (u.id == carA.id) = false)
    (hd0 : 0 ≤ d)
    (hd2 : d^2 = (carA.pos.x + -(3/2) * cosQ carA.rotation.y - pA.pos.x)^2 +
                 (carA.pos.z + (3/2) * sinQ carA.rotation.y - pA.pos.z)^2)
    (harr : d < 1/2)
    (hgB : ¬ (pB.state = EState.entering_vehicle ∨ pB.state = EState.exiting_vehicle))
    (hvB : pB.vehicleId = Option.some carB.id)
    (hl1B : ∀ u ∈ l1B, (u.id == carB.id) = false) :
    (enteringVehicleFrame sinQ cosQ atanQ d δ pA (l1A ++ carA :: l2A)).1.vehicleId
      = Option.some carA.id ∧
    (enteringVehicleFrame sinQ cosQ atanQ d δ pA (l1A ++ carA :: l2A)).1.state
      = EState.driving ∧
    (enteringVehicleFrame sinQ cosQ atanQ d δ pA (l1A ++ carA :: l2A)).2
      = l1A ++ { carA with vehicleId := Option.some pA.id } :: l2A ∧
    (fKeyHandler sinB cosB pB (l1B ++ carB :: l2B)).1.vehicleId = Option.none ∧
    (fKeyHandler sinB cosB pB (l1B ++ carB :: l2B)).1.state = EState.exiting_vehicle ∧
    (fKeyHandler sinB cosB pB (l1B ++ carB :: l2B)).2
      = l1B ++ { carB with vehicleId := Option.none } :: l2B ∧
    (respawnTimeout sC).player.vehicleId = Option.none ∧
    (respawnTimeout sC).entities = sC.entities := by
  have hselfA : ((fun (e : Entity) => e.id == carA.id) carA) = true := by simp
  have hfindA : (l1A ++ carA :: l2A).find? (fun e => e.id == carA.id) = Option.some carA :=
    find_of_split _ carA l1A hl1A hselfA l2A
  have hA : enteringVehicleFrame sinQ cosQ atanQ d δ pA (l1A ++ carA :: l2A)
      = ({ pA with
           vehicleId := Option.some carA.id,
           state := EState.driving,
           targetEntityId := Option.none,
           vel := ⟨0, 0, 0⟩,
           pos := carA.pos },
         setFirstWhere (fun e => e.id == carA.id)
           (fun c => { c with vehicleId := Option.some pA.id }) (l1A ++ carA :: l2A)) := by
    unfold enteringVehicleFrame
    rw [htidA]
    dsimp only
    rw [hfindA]
    dsimp only
    rw [if_pos harr]
  have hselfB : ((fun (e : Entity) => e.id == carB.id) carB) = true := by simp
  have hfindB : (l1B ++ carB :: l2B).find? (fun e => e.id == carB.id) = Option.some carB :=
    find_of_split _ carB l1B hl1B hselfB l2B
  have hB : fKeyHandler sinB cosB pB (l1B ++ carB :: l2B)
      = ({ pB with
           state := EState.exiting_vehicle,
           vehicleId := Option.none,
           pos := ⟨carB.pos.x + -(6/5) * cosB carB.rotation.y, carB.pos.y,
                   carB.pos.z + (6/5) * sinB carB.rotation.y⟩,
           targetPos := Option.some ⟨carB.pos.x + -3 * cosB carB.rotation.y, carB.pos.y,
                   carB.pos.z + 3 * sinB carB.rotation.y⟩ },
         setFirstWhere (fun e => e.id == carB.id)
           (fun c => { c with vehicleId := Option.none }) (l1B ++ carB :: l2B)) := by
    unfold fKeyHandler
    rw [if_neg hgB, hvB]
    dsimp only
    rw [hfindB]
  refine ⟨by rw [hA], by rw [hA], ?_, by rw [hB], by rw [hB], ?_, rfl, rfl⟩
  · rw [hA]
    show setFirstWhere _ _ _ = _
    exact setFirstWhere_of_split _ _ carA l1A hl1A hselfA l2A
  · rw [hB]
    show setFirstWhere _ _ _ = _
    exact setFirstWhere_of_split _ _ carB l1B hl1B hselfB l2B

/-- A concrete player one door-offset away from the vehicle it is entering. -/
def entryPlayer : Entity :=
  { baseEntity with
    id := "player",
    state := EState.entering_vehicle,
    targetEntityId := Option.some "carA" }

/-- A concrete vehicle whose door offset (at yaw 0) is exactly the origin. -/
def entryCar : Entity :=
  { baseEntity with
    id := "carA",
    type := EntityType.VEHICLE,
    pos := ⟨3/2, 0, 0⟩ }

/-- A concrete driving player occupying carB. -/
def exitPlayer : Entity :=
  { baseEntity with
    id := "player",
    state := EState.driving,
    vehicleId := Option.some "carB" }

/-- A concrete occupied vehicle pointing back at its driver. -/
def exitCar : Entity :=
  { baseEntity with
    id := "carB",
    type := EntityType.VEHICLE,
    vehicleId := Option.some "player" }

/-- C1 witness: the link rules evaluated at a concrete arrival (distance 0),
a concrete exit request, and the concrete respawn state. -/
theorem C1_vehicle_link_sides_witness :
    (entryPlayer.targetEntityId = Option.some entryCar.id ∧
     (∀ u ∈ ([] : List Entity), (u.id == entryCar.id) = false) ∧
     (0:ℚ) ≤ 0 ∧
     (0:ℚ)^2 = (entryCar.pos.x + -(3/2) * 1 - entryPlayer.pos.x)^2 +
               (entryCar.pos.z + (3/2) * 0 - entryPlayer.pos.z)^2 ∧
     (0:ℚ) < 1/2 ∧
     (¬ (exitPlayer.state = EState.entering_vehicle ∨
         exitPlayer.state = EState.exiting_vehicle)) ∧
     exitPlayer.vehicleId = Option.some exitCar.id ∧
     (∀ u ∈ ([] : List Entity), (u.id == exitCar.id) = false)) ∧
    ((enteringVehicleFrame (fun _ => 0) (fun _ => 1) (fun _ _ => 0) 0 1 entryPlayer
        ([] ++ entryCar :: [])).1.vehicleId = Option.some entryCar.id ∧
     (enteringVehicleFrame (fun _ => 0) (fun _ => 1) (fun _ _ => 0) 0 1 entryPlayer
        ([] ++ entryCar :: [])).1.state = EState.driving ∧
     (enteringVehicleFrame (fun _ => 0) (fun _ => 1) (fun _ _ => 0) 0 1 entryPlayer
        ([] ++ entryCar :: [])).2
       = [] ++ { entryCar with vehicleId := Option.some entryPlayer.id } :: [] ∧
     (fKeyHandler (fun _ => 0) (fun _ => 1) exitPlayer
        ([] ++ exitCar :: [])).1.vehicleId = Option.none ∧
     (fKeyHandler (fun _ => 0) (fun _ => 1) exitPlayer
        ([] ++ exitCar :: [])).1.state = EState.exiting_vehicle ∧
     (fKeyHandler (fun _ => 0) (fun _ => 1) exitPlayer
        ([] ++ exitCar :: [])).2
       = [] ++ { exitCar with vehicleId := Option.none } :: [] ∧
     (respawnTimeout deadDriveS).player.vehicleId = Option.none ∧
     (respawnTimeout deadDriveS).entities = deadDriveS.entities) :=
  ⟨⟨rfl, (by intro u hu; cases hu), le_refl 0,
    (by norm_num [entryCar, entryPlayer, baseEntity]),
    (by norm_num),
    (by decide), rfl, (by intro u hu; cases hu)⟩,
   C1_vehicle_link_sides (fun _ => 0) (fun _ => 1) (fun _ _ => 0) 0 1
     entryPlayer entryCar [] []
     (fun _ => 0) (fun _ => 1) exitPlayer exitCar [] []
     deadDriveS
     rfl (by intro u hu; cases hu) (le_refl 0)
     (by norm_num [entryCar, entryPlayer, baseEntity])
     (by norm_num)
     (by decide) rfl (by intro u hu; cases hu)⟩

/-
Projectile phase, from the per-frame projectile loop of useFrame
(GameScene.tsx lines 297 to 328).
-/

/-- Position integration of a projectile for one frame (GameScene.tsx lines
301 to 302). -/
def projectileMove (δ : ℚ) (e : Entity) : Entity :=
  { e with pos := ⟨e.pos.x + e.vel.x * δ, e.pos.y, e.pos.z + e.vel.z * δ⟩ }

/-- The target filter of the projectile hit scan (GameScene.tsx lines 306 to
307): skip the projectile itself, other projectiles, weapon pickups and the
player.  Note there is no dead-state check. -/
def projectileTargetable (e t : Entity) : Bool :=
  decide (¬ t.id = e.id ∧ ¬ t.type = EntityType.PROJECTILE ∧
          ¬ t.type = EntityType.ITEM_WEAPON ∧ ¬ t.type = EntityType.PLAYER)

/-- The radius test of the projectile hit scan (GameScene.tsx line 311). -/
def projectileHits (e t : Entity) : Bool :=
  decide ((e.pos.x - t.pos.x)^2 + (e.pos.z - t.pos.z)^2 < (t.size.x / 2 + 1/2)^2)

/-- The full per-target predicate of the projectile hit scan. -/
def projectilePred (e t : Entity) : Bool :=
  projectileTargetable e t && projectileHits e t

/-- The mutation applied to the single entity first hit (GameScene.tsx lines
313 to 316): only a target with positive health takes the 25 damage, dying
exactly when the result is at or below zero. -/
def projectileDamaged (t : Entity) : Entity :=
  if 0 < t.health then
    { t with
      health := t.health - 25,
      state := if t.health - 25 ≤ 0 then EState.dead else t.state }
  else t

/-- One iteration of the projectile loop for the projectile e (GameScene.tsx
lines 298 to 327): integrate the position by the velocity, damage the first
qualifying target within radius, and report whether the projectile leaves
the live list (on a hit, or once its squared distance from the player
exceeds 10000).  The outer loop walks the frame entity list from the end
and splices the projectile out when the flag is set. -/
def projectileFrame (δ : ℚ) (playerPos : Vec3) (e : Entity) (es : List Entity) :
    List Entity × Bool :=
  (setFirstWhere (projectilePred (projectileMove δ e)) projectileDamaged es,
   (es.find? (projectilePred (projectileMove δ e))).isSome ||
     decide (((projectileMove δ e).pos.x - playerPos.x)^2 +
             ((projectileMove δ e).pos.z - playerPos.z)^2 > 10000))

/-- A concrete stationary projectile at the origin. -/
def cexProj : Entity :=
  { baseEntity with
    id := "proj",
    type := EntityType.PROJECTILE,
    size := ⟨1/10, 1/10, 1/10⟩ }

/-- A concrete dead civilian at the origin. -/
def deadCiv : Entity :=
  { baseEntity with
    id := "corpse",
    state := EState.dead,
    health := 0 }

theorem cexProj_self_pred : projectilePred (projectileMove 1 cexProj) cexProj = false := by
  simp [projectilePred, projectileTargetable, projectileMove, cexProj, baseEntity]

theorem cexProj_dead_pred : projectilePred (projectileMove 1 cexProj) deadCiv = true := by
  simp only [projectilePred, projectileTargetable, projectileHits, Bool.and_eq_true,
    decide_eq_true_eq, projectileMove, cexProj, deadCiv, baseEntity]
  refine ⟨⟨by simp, by simp, by simp, by simp⟩, by norm_num⟩

/-- C4 counterexample: a projectile overlapping an entity whose state is
dead registers a hit on it and is consumed by it (removed from the live
list while well inside the despawn range), because the projectile scan has
no dead check; the corpse itself takes no damage. -/
theorem C4_dead_target_consumes_projectile :
    deadCiv.state = EState.dead ∧
    projectilePred (projectileMove 1 cexProj) deadCiv = true ∧
    (projectileFrame 1 ⟨0, 0, 0⟩ cexProj [cexProj, deadCiv]).2 = true ∧
    ((projectileMove 1 cexProj).pos.x - (0:ℚ))^2 + ((projectileMove 1 cexProj).pos.z - (0:ℚ))^2
      ≤ 10000 ∧
    (projectileFrame 1 ⟨0, 0, 0⟩ cexProj [cexProj, deadCiv]).1 = [cexProj, deadCiv] := by
  have hfind : [cexProj, deadCiv].find? (projectilePred (projectileMove 1 cexProj))
      = Option.some deadCiv := by
    simp [List.find?, cexProj_self_pred, cexProj_dead_pred]
  have hdmg : projectileDamaged deadCiv = deadCiv := by
    unfold projectileDamaged
    rw [if_neg (by norm_num [deadCiv, baseEntity])]
  refine ⟨rfl, cexProj_dead_pred, ?_, ?_, ?_⟩
  · show ([cexProj, deadCiv].find? (projectilePred (projectileMove 1 cexProj))).isSome || _
      = true
    rw [hfind]
    rfl
  · norm_num [projectileMove, cexProj, baseEntity]
  · show setFirstWhere (projectilePred (projectileMove 1 cexProj)) projectileDamaged
      [cexProj, deadCiv] = _
    rw [setFirstWhere, if_neg (by rw [cexProj_self_pred]; exact Bool.false_ne_true),
        setFirstWhere, if_pos cexProj_dead_pred, hdmg]

/-- C4 amended: the projectile scan tests every entity other than the
projectile itself, other projectiles, weapon pickups and the player —
including dead ones.  A hit target with positive health loses exactly 25
health and becomes dead exactly when the result is at or below zero; a hit
target with health at or below zero (in particular an already dead one) is
unchanged but still consumes the projectile; the projectile leaves the
live list exactly on a hit or once its squared distance from the player
exceeds 10000. -/
theorem C4_projectile_phase (δ : ℚ) (pp : Vec3) (e : Entity) (l1 l2 : List Entity)
    (t t2 : Entity) (es3 : List Entity)
    (hl1 : ∀ u ∈ l1, projectilePred (projectileMove δ e) u = false)
    (ht : projectilePred (projectileMove δ e) t = true)
    (htAlive : 0 < t.health)
    (ht2 : projectilePred (projectileMove δ e) t2 = true)
    (ht2dead : t2.health ≤ 0)
    (h3 : ∀ u ∈ es3, projectilePred (projectileMove δ e) u = false) :
    (t.id ≠ e.id ∧ t.type ≠ EntityType.PROJECTILE ∧
     t.type ≠ EntityType.ITEM_WEAPON ∧ t.type ≠ EntityType.PLAYER) ∧
    (projectileFrame δ pp e (l1 ++ t :: l2)).1
      = l1 ++ { t with
                health := t.health - 25,
                state := if t.health - 25 ≤ 0 then EState.dead else t.state } :: l2 ∧
    (projectileFrame δ pp e (l1 ++ t :: l2)).2 = true ∧
    (projectileFrame δ pp e (l1 ++ t2 :: l2)).1 = l1 ++ t2 :: l2 ∧
    (projectileFrame δ pp e (l1 ++ t2 :: l2)).2 = true ∧
    (projectileFrame δ pp e es3).1 = es3 ∧
    (projectileFrame δ pp e es3).2
      = decide (((projectileMove δ e).pos.x - pp.x)^2 +
                ((projectileMove δ e).pos.z - pp.z)^2 > 10000) := by
  have htarg : projectileTargetable (projectileMove δ e) t = true := by
    have := ht
    unfold projectilePred at this
    exact (Bool.and_eq_true _ _).mp this |>.1
  have htprops := of_decide_eq_true htarg
  have hmove : (projectileMove δ e).id = e.id := rfl
  refine ⟨?_, ?_, ?_, ?_, ?_, ?_, ?_⟩
  · exact ⟨by rw [← hmove]; exact htprops.1, htprops.2.1, htprops.2.2.1, htprops.2.2.2⟩
  · show setFirstWhere _ projectileDamaged _ = _
    rw [setFirstWhere_of_split _ _ t l1 hl1 ht l2]
    unfold projectileDamaged
    rw [if_pos htAlive]
  · show (List.find? _ _).isSome || _ = true
    rw [find_of_split _ t l1 hl1 ht l2]
    rfl
  · show setFirstWhere _ projectileDamaged _ = _
    rw [setFirstWhere_of_split _ _ t2 l1 hl1 ht2 l2]
    unfold projectileDamaged
    rw [if_neg (not_lt.mpr ht2dead)]
  · show (List.find? _ _).isSome || _ = true
    rw [find_of_split _ t2 l1 hl1 ht2 l2]
    rfl
  · show setFirstWhere _ projectileDamaged _ = _
    exact setFirstWhere_of_none _ _ es3 h3
  · show ((List.find? _ _).isSome || _) = _
    rw [find_of_none _ es3 h3]
    exact Bool.false_or _

/-- A concrete living civilian at the origin, inside the projectile radius. -/
def hitVictim : Entity := { baseEntity with id := "victim" }

theorem cexProj_victim_pred : projectilePred (projectileMove 1 cexProj) hitVictim = true := by
  simp only [projectilePred, projectileTargetable, projectileHits, Bool.and_eq_true,
    decide_eq_true_eq, projectileMove, cexProj, hitVictim, baseEntity]
  refine ⟨⟨by simp, by simp, by simp, by simp⟩, by norm_num⟩

/-- C4 witness: the projectile phase evaluated on a concrete living victim,
the concrete corpse, and the empty list. -/
theorem C4_projectile_phase_witness :
    ((∀ u ∈ ([] : List Entity), projectilePred (projectileMove 1 cexProj) u = false) ∧
     projectilePred (projectileMove 1 cexProj) hitVictim = true ∧
     (0:ℚ) < hitVictim.health ∧
     projectilePred (projectileMove 1 cexProj) deadCiv = true ∧
     deadCiv.health ≤ 0) ∧
    ((hitVictim.id ≠ cexProj.id ∧ hitVictim.type ≠ EntityType.PROJECTILE ∧
      hitVictim.type ≠ EntityType.ITEM_WEAPON ∧ hitVictim.type ≠ EntityType.PLAYER) ∧
     (projectileFrame 1 ⟨0, 0, 0⟩ cexProj ([] ++ hitVictim :: [])).1
       = [] ++ { hitVictim with
                 health := hitVictim.health - 25,
                 state := if hitVictim.health - 25 ≤ 0 then EState.dead
                          else hitVictim.state } :: [] ∧
     (projectileFrame 1 ⟨0, 0, 0⟩ cexProj ([] ++ hitVictim :: [])).2 = true ∧
     (projectileFrame 1 ⟨0, 0, 0⟩ cexProj ([] ++ deadCiv :: [])).1 = [] ++ deadCiv :: [] ∧
     (projectileFrame 1 ⟨0, 0, 0⟩ cexProj ([] ++ deadCiv :: [])).2 = true ∧
     (projectileFrame 1 ⟨0, 0, 0⟩ cexProj []).1 = ([] : List Entity) ∧
     (projectileFrame 1 ⟨0, 0, 0⟩ cexProj []).2
       = decide (((projectileMove 1 cexProj).pos.x - (Vec3.mk 0 0 0).x)^2 +
                 ((projectileMove 1 cexProj).pos.z - (Vec3.mk 0 0 0).z)^2 > 10000)) :=
  ⟨⟨(by intro u hu; cases hu), cexProj_victim_pred,
    (by norm_num [hitVictim, baseEntity]), cexProj_dead_pred,
    (by norm_num [deadCiv, baseEntity])⟩,
   C4_projectile_phase 1 ⟨0, 0, 0⟩ cexProj [] [] hitVictim deadCiv []
     (by intro u hu; cases hu) cexProj_victim_pred
     (by norm_num [hitVictim, baseEntity]) cexProj_dead_pred
     (by norm_num [deadCiv, baseEntity]) (by intro u hu; cases hu)⟩

/-
World generation: the populate loop of generateWorld
(src/utils/worldGen.ts lines 103 to 236).  Math.random is an explicit
stream: the k-th call returns R k, and every branch consumes draws in the
evaluation order of the source.
-/

/-- The oracles of the world generator: R is the Math.random stream, idOf
models Math.random().toString(36).slice(2, 9) applied to a draw, and piQ
models Math.PI. -/
structure Rng where
  R : ℕ → ℚ
  idOf : ℚ → String
  piQ : ℚ

/-- FACTION_COLORS from the constants module. -/
def FACTION_COLORS : Faction → String
  | Faction.civilian => "#fca5a5"
  | Faction.groves => "#22c55e"
  | Faction.ballas => "#a855f7"
  | Faction.police => "#60a5fa"

/-- The traffic vehicle palette (worldGen line 136). -/
def trafficColors : List String :=
  ["#ef4444", "#3b82f6", "#10b981", "#f59e0b", "#000000", "#ffffff", "#7c3aed"]

/-- The parked vehicle palette (worldGen line 169). -/
def parkedColors : List String := ["#1f2937", "#374151", "#4b5563"]

/-- The residential building palette (worldGen line 189). -/
def residentialColors : List String := ["#9a3412", "#7c2d12", "#b45309", "#be123c"]

/-- The industrial building palette (worldGen line 193). -/
def industrialColors : List String := ["#3f3f46", "#52525b", "#27272a"]

/-- The commercial building palette (worldGen line 197). -/
def commercialColors : List String := ["#57534e", "#52525b", "#4b5563"]

/-- addEntity from generateWorld (worldGen lines 104 to 121): push a record
with a random id (draw n), position at the tile centre (default y 0 for
props and 1.5 otherwise — overridden whenever props carries a pos, as at
every call site passing one), a random default yaw (draw n + 1), and the
spread props applied on top. -/
def addEntityE (g : Rng) (n : ℕ) (ty : EntityType) (x z : ℕ)
    (props : Entity → Entity) : Entity :=
  props
    { id := g.idOf (g.R n),
      type := ty,
      pos := ⟨(x : ℚ) * TILE_SIZE, (if ty = EntityType.PROP then 0 else 3/2),
              (z : ℚ) * TILE_SIZE⟩,
      vel := ⟨0, 0, 0⟩,
      rotation := ⟨0, g.R (n+1) * g.piQ * 2, 0⟩,
      health := 100, maxHealth := 100, color := "#fff",
      size := (if ty = EntityType.VEHICLE then ⟨11/5, 7/5, 24/5⟩ else ⟨4/5, 9/5, 4/5⟩),
      state := EState.idle }

/-- The is-near-road test of the populate loop (worldGen lines 142 to 146),
with MAP_WIDTH = MAP_HEIGHT = 100. -/
def nearRoad (tiles : ℕ → ℕ → TileType) (x z : ℕ) : Bool :=
  (decide (0 < x) && decide (tiles z (x-1) = TileType.ROAD)) ||
  (decide (x < 99) && decide (tiles z (x+1) = TileType.ROAD)) ||
  (decide (0 < z) && decide (tiles (z-1) x = TileType.ROAD)) ||
  (decide (z < 99) && decide (tiles (z+1) x = TileType.ROAD))

/-- The NPC roll on a grass tile (worldGen lines 219 to 233): probability
0.02 (draw n); the faction is drawn at n + 1; gang members get a bandana
with no further draw, while a civilian rolls once more (n + 2) for a
backpack; the entity type is CIVILIAN exactly for the civilian faction. -/
def npcCheck (g : Rng) (x z n : ℕ) : List Entity × ℕ :=
  if g.R n < 1/50 then
    let faction := ([Faction.civilian, Faction.groves, Faction.ballas]).getD
      (⌊g.R (n+1) * 3⌋).toNat Faction.civilian
    if faction = Faction.groves ∨ faction = Faction.ballas then
      ([addEntityE g (n+2) EntityType.GANG_MEMBER x z (fun b =>
         { b with
           faction := Option.some faction,
           color := FACTION_COLORS faction,
           type := (if faction = Faction.civilian then EntityType.CIVILIAN
                    else EntityType.GANG_MEMBER),
           accessory := Option.some Accessory.bandana })], n+4)
    else
      ([addEntityE g (n+3) EntityType.GANG_MEMBER x z (fun b =>
         { b with
           faction := Option.some faction,
           color := FACTION_COLORS faction,
           type := (if faction = Faction.civilian then EntityType.CIVILIAN
                    else EntityType.GANG_MEMBER),
           accessory := Option.some (if g.R (n+2) > 7/10 then Accessory.backpack
                                     else Accessory.none) })], n+5)
  else ([], n+1)

/-- The road-tile traffic roll (worldGen lines 131 to 139): probability 0.03
(draw n), colour index floor(7 * draw (n+1)), yaw 0 on vertical road
stretches (x on the road grid through the spawn column) and pi/2 otherwise. -/
def roadTile (g : Rng) (x z n : ℕ) : List Entity × ℕ :=
  if g.R n < 3/100 then
    ([addEntityE g (n+2) EntityType.VEHICLE x z (fun b =>
       { b with
         color := trafficColors.getD (⌊g.R (n+1) * 7⌋).toNat "#ef4444",
         rotation := ⟨0, (if Int.natAbs ((x:ℤ) - 50) % 16 = 0 then 0 else g.piQ / 2), 0⟩ })],
     n+4)
  else ([], n+1)

/-- The near-road prop rolls on a grass tile (worldGen lines 148 to 173):
streetlight or hydrant at 0.15, else a street sign at 0.1 (red stop sign
with probability 0.3), else a parked vehicle at 0.05 lifted onto the curb. -/
def nearRoadProps (g : Rng) (x z n : ℕ) : List Entity × ℕ :=
  if g.R n < 3/20 then
    ([addEntityE g (n+2) EntityType.PROP x z (fun b =>
       { b with
         propType := Option.some (if g.R (n+1) > 1/2 then PropKind.streetlight
                                  else PropKind.hydrant),
         size := (if g.R (n+1) > 1/2 then ⟨1/2, 6, 1/2⟩ else ⟨1/2, 4/5, 1/2⟩),
         pos := ⟨(x : ℚ) * TILE_SIZE, 0, (z : ℚ) * TILE_SIZE⟩ })], n+4)
  else if g.R (n+1) < 1/10 then
    ([addEntityE g (n+4) EntityType.PROP x z (fun b =>
       { b with
         propType := Option.some PropKind.sign,
         size := ⟨1/2, 3, 1/2⟩,
         color := (if g.R (n+2) > 7/10 then "red" else "green"),
         rotation := ⟨0, g.R (n+3) * g.piQ, 0⟩,
         pos := ⟨(x : ℚ) * TILE_SIZE, 0, (z : ℚ) * TILE_SIZE⟩ })], n+6)
  else if g.R (n+2) < 1/20 then
    ([addEntityE g (n+5) EntityType.VEHICLE x z (fun b =>
       { b with
         color := parkedColors.getD (⌊g.R (n+3) * 3⌋).toNat "#1f2937",
         rotation := ⟨0, g.R (n+4) * (1/2), 0⟩,
         pos := ⟨(x : ℚ) * TILE_SIZE, 1/5, (z : ℚ) * TILE_SIZE⟩ })], n+7)
  else ([], n+3)

/-- The interior-block building roll on a grass tile (worldGen lines 175 to
206): probability 0.6 (draw n); the categorical draw n + 1 picks the kind,
the dead initial height draw n + 2 is consumed and overwritten, and each
branch draws its height (n + 3) and, outside the skyscraper case, its
palette colour (n + 4); the building sits at half its height. -/
def buildingRoll (g : Rng) (x z n : ℕ) : List Entity × ℕ :=
  if g.R n < 3/5 then
    if g.R (n+1) > 47/50 then
      ([addEntityE g (n+4) EntityType.BUILDING x z (fun b =>
         { b with
           buildingType := Option.some BuildingKind.skyscraper,
           size := ⟨8, 25 + g.R (n+3) * 20, 8⟩,
           color := "#334155",
           pos := ⟨(x : ℚ) * TILE_SIZE, (25 + g.R (n+3) * 20) / 2, (z : ℚ) * TILE_SIZE⟩ })],
       n+6)
    else if g.R (n+1) > 13/20 then
      ([addEntityE g (n+5) EntityType.BUILDING x z (fun b =>
         { b with
           buildingType := Option.some BuildingKind.residential,
           size := ⟨8, 6 + g.R (n+3) * 4, 8⟩,
           color := residentialColors.getD (⌊g.R (n+4) * 4⌋).toNat "#9a3412",
           pos := ⟨(x : ℚ) * TILE_SIZE, (6 + g.R (n+3) * 4) / 2, (z : ℚ) * TILE_SIZE⟩ })],
       n+7)
    else if g.R (n+1) > 1/2 then
      ([addEntityE g (n+5) EntityType.BUILDING x z (fun b =>
         { b with
           buildingType := Option.some BuildingKind.industrial,
           size := ⟨8, 8 + g.R (n+3) * 4, 8⟩,
           color := industrialColors.getD (⌊g.R (n+4) * 3⌋).toNat "#3f3f46",
           pos := ⟨(x : ℚ) * TILE_SIZE, (8 + g.R (n+3) * 4) / 2, (z : ℚ) * TILE_SIZE⟩ })],
       n+7)
    else
      ([addEntityE g (n+5) EntityType.BUILDING x z (fun b =>
         { b with
           buildingType := Option.some BuildingKind.commercial,
           size := ⟨8, 8 + g.R (n+3) * 8, 8⟩,
           color := commercialColors.getD (⌊g.R (n+4) * 3⌋).toNat "#57534e",
           pos := ⟨(x : ℚ) * TILE_SIZE, (8 + g.R (n+3) * 8) / 2, (z : ℚ) * TILE_SIZE⟩ })],
       n+7)
  else ([], n+1)

/-- The interior-block part of a grass tile (worldGen lines 175 to 215): the
building roll followed by the independent tree roll at 0.05, the tree height
drawn right after its check. -/
def interiorProps (g : Rng) (x z n : ℕ) : List Entity × ℕ :=
  if g.R (buildingRoll g x z n).2 < 1/20 then
    ((buildingRoll g x z n).1 ++
      [addEntityE g ((buildingRoll g x z n).2 + 2) EntityType.PROP x z (fun b =>
        { b with
          propType := Option.some PropKind.tree,
          size := ⟨3, 6 + g.R ((buildingRoll g x z n).2 + 1) * 4, 3⟩,
          color := "#065f46",
          pos := ⟨(x : ℚ) * TILE_SIZE, 0, (z : ℚ) * TILE_SIZE⟩ })],
     (buildingRoll g x z n).2 + 4)
  else ((buildingRoll g x z n).1, (buildingRoll g x z n).2 + 1)

/-- One tile of the populate loop (worldGen lines 129 to 234): traffic on
roads; props or buildings plus the NPC roll on grass; nothing elsewhere. -/
def populateTile (g : Rng) (tiles : ℕ → ℕ → TileType) (x z n : ℕ) : List Entity × ℕ :=
  match tiles z x with
  | TileType.ROAD => roadTile g x z n
  | TileType.GRASS =>
    if nearRoad tiles x z then
      ((nearRoadProps g x z n).1 ++ (npcCheck g x z (nearRoadProps g x z n).2).1,
       (npcCheck g x z (nearRoadProps g x z n).2).2)
    else
      ((interiorProps g x z n).1 ++ (npcCheck g x z (interiorProps g x z n).2).1,
       (npcCheck g x z (interiorProps g x z n).2).2)
  | _ => ([], n)

/-- The safe-zone guard of the populate loop (worldGen line 127): skip tiles
within 4 of the spawn tile (50, 50) on both axes. -/
def safeZone (x z : ℕ) : Bool :=
  decide (Int.natAbs ((x:ℤ) - 50) < 4 ∧ Int.natAbs ((z:ℤ) - 50) < 4)

/-- The tile traversal order of the populate loop: z from MARGIN = 12 to
MAP_HEIGHT - MARGIN = 88 exclusive, x likewise within it. -/
def cityTiles : List (ℕ × ℕ) :=
  (List.range' 12 76).flatMap (fun z => (List.range' 12 76).map (fun x => (x, z)))

/-- The populate loop of generateWorld (worldGen lines 123 to 236): fold over
the tiles, skipping the safe zone, threading the random counter, and
appending each tile contribution.  generateWorld returns exactly this entity
list (phases 1 to 4 only build the tile and elevation grids). -/
def populateCity (g : Rng) (tiles : ℕ → ℕ → TileType) : List Entity × ℕ :=
  cityTiles.foldl
    (fun acc xz =>
      if safeZone xz.1 xz.2 then acc
      else (acc.1 ++ (populateTile g tiles xz.1 xz.2 acc.2).1,
            (populateTile g tiles xz.1 xz.2 acc.2).2))
    ([], 0)

theorem npcCheck_pos (g : Rng) (x z n : ℕ) :
    ∀ e ∈ (npcCheck g x z n).1,
      e.pos.x = (x:ℚ) * TILE_SIZE ∧ e.pos.z = (z:ℚ) * TILE_SIZE := by
  intro e he
  unfold npcCheck at he
  dsimp only at he
  split_ifs at he <;> simp_all [addEntityE]

theorem roadTile_pos (g : Rng) (x z n : ℕ) :
    ∀ e ∈ (roadTile g x z n).1,
      e.pos.x = (x:ℚ) * TILE_SIZE ∧ e.pos.z = (z:ℚ) * TILE_SIZE := by
  intro e he
  unfold roadTile at he
  split_ifs at he <;> simp_all [addEntityE]

theorem nearRoadProps_pos (g : Rng) (x z n : ℕ) :
    ∀ e ∈ (nearRoadProps g x z n).1,
      e.pos.x = (x:ℚ) * TILE_SIZE ∧ e.pos.z = (z:ℚ) * TILE_SIZE := by
  intro e he
  unfold nearRoadProps at he
  split_ifs at he <;> simp_all [addEntityE]

theorem buildingRoll_pos (g : Rng) (x z n : ℕ) :
    ∀ e ∈ (buildingRoll g x z n).1,
      e.pos.x = (x:ℚ) * TILE_SIZE ∧ e.pos.z = (z:ℚ) * TILE_SIZE := by
  intro e he
  unfold buildingRoll at he
  split_ifs at he <;> simp_all [addEntityE]

theorem interiorProps_pos (g : Rng) (x z n : ℕ) :
    ∀ e ∈ (interiorProps g x z n).1,
      e.pos.x = (x:ℚ) * TILE_SIZE ∧ e.pos.z = (z:ℚ) * TILE_SIZE := by
  intro e he
  unfold interiorProps at he
  split_ifs at he
  · rcases List.mem_append.mp he with h | h
    · exact buildingRoll_pos g x z n e h
    · simp at h
      subst h
      simp [addEntityE]
  · exact buildingRoll_pos g x z n e he

theorem populateTile_pos (g : Rng) (tiles : ℕ → ℕ → TileType) (x z n : ℕ) :
    ∀ e ∈ (populateTile g tiles x z n).1,
      e.pos.x = (x:ℚ) * TILE_SIZE ∧ e.pos.z = (z:ℚ) * TILE_SIZE := by
  intro e he
  unfold populateTile at he
  split at he
  · exact roadTile_pos g x z n e he
  · split_ifs at he
    · rcases List.mem_append.mp he with h | h
      · exact nearRoadProps_pos g x z n e h
      · exact npcCheck_pos g x z _ e h
    · rcases List.mem_append.mp he with h | h
      · exact interiorProps_pos g x z n e h
      · exact npcCheck_pos g x z _ e h
  · cases he

/-- An entity clears the spawn safe zone when its position is not within the
safe-zone box around the spawn point: the spawn tile is (50, 50), so in
world coordinates the guarded square is 40 units (4 tiles) around 500. -/
def clearOfSpawn (e : Entity) : Bool :=
  !(decide (qabs (e.pos.x - 500) < 40) && decide (qabs (e.pos.z - 500) < 40))

theorem coord_far (x : ℕ) (h : ¬ Int.natAbs ((x:ℤ) - 50) < 4) :
    ¬ qabs ((x:ℚ) * TILE_SIZE - 500) < 40 := by
  rw [qabs_eq_abs]
  have h4 : (4:ℚ) ≤ |(x:ℚ) - 50| := by
    have hn : 4 ≤ Int.natAbs ((x:ℤ) - 50) := not_lt.mp h
    have hc : ((4:ℕ):ℚ) ≤ ((Int.natAbs ((x:ℤ) - 50) : ℕ) : ℚ) := Nat.cast_le.mpr hn
    rw [Int.cast_natAbs] at hc
    push_cast at hc
    exact hc
  intro hlt
  have habs : |(x:ℚ) * TILE_SIZE - 500| = 10 * |(x:ℚ) - 50| := by
    rw [show (x:ℚ) * TILE_SIZE - 500 = 10 * ((x:ℚ) - 50) by unfold TILE_SIZE; ring, abs_mul]
    norm_num
  rw [habs] at hlt
  linarith

theorem outside_safe_zone (x z : ℕ) (h : safeZone x z = false) (e : Entity)
    (hx : e.pos.x = (x:ℚ) * TILE_SIZE) (hz : e.pos.z = (z:ℚ) * TILE_SIZE) :
    clearOfSpawn e = true := by
  unfold clearOfSpawn
  rw [Bool.not_eq_true']
  rw [Bool.and_eq_false_iff]
  unfold safeZone at h
  rw [decide_eq_false_iff_not] at h
  rcases not_and_or.mp h with hc | hc
  · left
    rw [decide_eq_false_iff_not, hx]
    exact coord_far x hc
  · right
    rw [decide_eq_false_iff_not, hz]
    exact coord_far z hc

theorem populateCity_fold_safe (g : Rng) (tiles : ℕ → ℕ → TileType) :
    ∀ (l : List (ℕ × ℕ)) (acc : List Entity × ℕ),
      (∀ e ∈ acc.1, clearOfSpawn e = true) →
      ∀ e ∈ (l.foldl
        (fun acc xz =>
          if safeZone xz.1 xz.2 then acc
          else (acc.1 ++ (populateTile g tiles xz.1 xz.2 acc.2).1,
                (populateTile g tiles xz.1 xz.2 acc.2).2)) acc).1,
        clearOfSpawn e = true := by
  intro l
  induction l with
  | nil =>
    intro acc hacc
    exact hacc
  | cons xz l ih =>
    intro acc hacc
    rw [List.foldl_cons]
    by_cases hs : safeZone xz.1 xz.2 = true
    · rw [if_pos hs]
      exact ih acc hacc
    · rw [if_neg hs]
      refine ih _ ?_
      intro e he
      rcases List.mem_append.mp he with h | h
      · exact hacc e h
      · have hp := populateTile_pos g tiles xz.1 xz.2 acc.2 e h
        exact outside_safe_zone xz.1 xz.2 (Bool.not_eq_true _ ▸ hs) e hp.1 hp.2

/-- C9: for every outcome of the random stream and every tile grid, no
entity produced by the populate loop sits on a tile inside the safe zone
around the spawn tile: every generated entity position clears the 4-tile
(40 world units) square around the spawn point (500, 500). -/
theorem C9_spawn_safe_zone_clear (g : Rng) (tiles : ℕ → ℕ → TileType) :
    (populateCity g tiles).1.all clearOfSpawn = true := by
  rw [List.all_eq_true]
  unfold populateCity
  intro e he
  exact populateCity_fold_safe g tiles cityTiles ([], 0) (by intro u hu; cases hu) e he

end SanReactos
